import Mathlib

/-!
Verification of the AdapDict backend pipeline (query analyzer, prompt
composer, verifier client, answer summarizer, orchestrator decision logic)
against its natural-language specification.

The Python sources are shallowly embedded: strings are Lean `String`s
(processed as their `List Char` contents), Python floats that only ever hold
decimal literals and exact quotients are modelled as `ℚ`, fallible code
returns `Except`/`Option`, and the two external LLM services are oracles
passed in as explicit arguments.  Definition names follow the Python
symbols.  Python's `str.strip`/`\s` whitespace and `str.lower` are modelled
on their ASCII part, which covers every character the embedded code ever
tests against them.
-/

namespace AdapDict

/-! ## Python string primitives -/

/-- Python whitespace (`\s`, `str.strip`, `str.split`), ASCII part. -/
def isPyWs (c : Char) : Bool :=
  c = ' ' || c = '\t' || c = '\n' || c = '\r' || c = '\x0b' || c = '\x0c'

/-- ASCII lowering, modelling `str.lower` on the ASCII strings the code
compares (mode names, field names, education codes). -/
def pyLowerChar (c : Char) : Char :=
  if 'A' ≤ c && c ≤ 'Z' then Char.ofNat (c.toNat + 32) else c

def pyLower (s : String) : String :=
  ⟨s.data.map pyLowerChar⟩

/-- `str.strip()` on a character list. -/
def pyStripList (l : List Char) : List Char :=
  ((l.dropWhile isPyWs).reverse.dropWhile isPyWs).reverse

/-- `str.strip()` on a string. -/
def pyStrip (s : String) : String :=
  ⟨pyStripList s.data⟩

/-- Prepend a character to the first piece of a split (used by the
splitting recursions below). -/
def consHead (c : Char) : List (List Char) → List (List Char)
  | [] => [[c]]
  | h :: t => (c :: h) :: t

/-- `re.split` on a one-character class: cut at every character satisfying
`p`, separator removed.  Always returns at least one (possibly empty)
piece, as `re.split` does. -/
def splitOnPred (p : Char → Bool) : List Char → List (List Char)
  | [] => [[]]
  | c :: rest =>
    if p c then [] :: splitOnPred p rest else consHead c (splitOnPred p rest)

/-- `str.split()`: pieces between whitespace runs, empties dropped. -/
def pyWords (l : List Char) : List (List Char) :=
  (splitOnPred isPyWs l).filter (· ≠ [])

/-! ## Query analyzer (src/backend/utils/query_analyzer.py) -/

/-- `LangCode = Literal["ko", "en", "zh", "de"]`. -/
inductive Lang where
  | ko | en | zh | de
deriving DecidableEq, Repr

/-- `QueryType`. -/
inductive QueryType where
  | word | word_list | phrase | phrase_list | sentence | paragraph
deriving DecidableEq, Repr

/-- `_HANGUL_RANGE = [가-힣]`. -/
def isHangul (c : Char) : Bool :=
  0xAC00 ≤ c.toNat && c.toNat ≤ 0xD7A3

/-- `_CJK_RANGE = [一-鿿]`. -/
def isCJK (c : Char) : Bool :=
  0x4E00 ≤ c.toNat && c.toNat ≤ 0x9FFF

/-- `_LATIN_RANGE = [A-Za-z]`. -/
def isLatinLetter (c : Char) : Bool :=
  ('A' ≤ c && c ≤ 'Z') || ('a' ≤ c && c ≤ 'z')

/-- `_GERMAN_CHAR = [ÄÖÜäöüß]`. -/
def isGermanChar (c : Char) : Bool :=
  c = 'Ä' || c = 'Ö' || c = 'Ü' || c = 'ä' || c = 'ö' || c = 'ü' || c = 'ß'

/-- `_SENT_TERM_LATIN = [.!?]`. -/
def isSentTermLatin (c : Char) : Bool :=
  c = '.' || c = '!' || c = '?'

/-- `_SENT_TERM_ZH = [。？！]`. -/
def isSentTermZh (c : Char) : Bool :=
  c = '。' || c = '？' || c = '！'

/-- `_LIST_SPLIT_PATTERN = [;,/·]|[，、；]|\n+` as the character class it
cuts at (a `\n` run and a lone `\n` split identically once empty items are
filtered out, which `_split_list_candidates` always does). -/
def isListSep (c : Char) : Bool :=
  c = ';' || c = ',' || c = '/' || c = '·' || c = '，' || c = '、' || c = '；' || c = '\n'

/-- `text.replace("\r\n", "\n").replace("\r", "\n")`. -/
def unifyNewlines : List Char → List Char
  | [] => []
  | '\r' :: '\n' :: rest => '\n' :: unifyNewlines rest
  | '\r' :: rest => '\n' :: unifyNewlines rest
  | c :: rest => c :: unifyNewlines rest

/-- One character is a space or a tab (`[ \t]`). -/
def isSpaceTab (c : Char) : Bool :=
  c = ' ' || c = '\t'

/-- `re.sub(r"[ \t]+", " ", t)`: collapse each space/tab run to one
space.  The flag records whether the previous character was part of a
space/tab run (so the run's later characters are dropped). -/
def collapseSpaceTabAux : Bool → List Char → List Char
  | _, [] => []
  | inRun, c :: rest =>
    if isSpaceTab c then
      if inRun then collapseSpaceTabAux true rest
      else ' ' :: collapseSpaceTabAux true rest
    else c :: collapseSpaceTabAux false rest

def collapseSpaceTab (l : List Char) : List Char :=
  collapseSpaceTabAux false l

/-- `_normalize` on the character list: unify newlines, strip, collapse
space/tab runs. -/
def normalizeChars (l : List Char) : List Char :=
  collapseSpaceTab (pyStripList (unifyNewlines l))

/-- `_normalize(text)`. -/
def _normalize (text : String) : String :=
  ⟨normalizeChars text.data⟩

/-- `_lang_score(text, lang)`: character-class count over the first 300
characters. -/
def _lang_score (text : List Char) (lang : Lang) : Nat :=
  if text = [] then 0
  else
    let sample := text.take 300
    match lang with
    | .ko => (sample.filter isHangul).length
    | .zh => (sample.filter isCJK).length
    | .de => (sample.filter isGermanChar).length + (sample.filter isLatinLetter).length
    | .en => (sample.filter isLatinLetter).length

/-- The sentence-terminator class used for the detected language. -/
def sentTermFor (lang : Option Lang) : Char → Bool :=
  if lang = some .zh then isSentTermZh else isSentTermLatin

/-- `_looks_like_paragraph(text, lang)`. -/
def _looks_like_paragraph (text : List Char) (lang : Option Lang) : Bool :=
  if text = [] then false
  else
    let parts := splitOnPred (sentTermFor lang) text
    let sentences := (parts.map pyStripList).filter (· ≠ [])
    if sentences.length < 2 then false
    else if text.length < 80 then false
    else true

/-- `re.split(r"(?<=[。？！])\s*", text)`: cut after every Chinese
terminator, consuming the whitespace run that follows it.  The flag is
true while that run is being consumed. -/
def splitSentZhAux : Bool → List Char → List (List Char)
  | _, [] => [[]]
  | skip, c :: rest =>
    if skip && isPyWs c then splitSentZhAux true rest
    else if isSentTermZh c then [c] :: splitSentZhAux true rest
    else consHead c (splitSentZhAux false rest)

def splitSentZh (l : List Char) : List (List Char) :=
  splitSentZhAux false l

/-- `re.split(r"(?<=[\.!?])\s+", text)`: cut after a Latin terminator only
when at least one whitespace character follows, consuming that run.  The
flag is true while that run is being consumed. -/
def splitSentLatinAux : Bool → List Char → List (List Char)
  | _, [] => [[]]
  | skip, c :: rest =>
    if skip && isPyWs c then splitSentLatinAux true rest
    else if isSentTermLatin c && (match rest with | d :: _ => isPyWs d | [] => false) then
      [c] :: splitSentLatinAux true rest
    else consHead c (splitSentLatinAux false rest)

def splitSentLatin (l : List Char) : List (List Char) :=
  splitSentLatinAux false l

/-- `_split_sentences(text, lang)`. -/
def _split_sentences (text : List Char) (lang : Option Lang) : List (List Char) :=
  if text = [] then []
  else
    let parts := if lang = some .zh then splitSentZh text else splitSentLatin text
    (parts.map pyStripList).filter (· ≠ [])

/-- `_split_list_candidates(text)`. -/
def _split_list_candidates (text : List Char) : List (List Char) :=
  ((splitOnPred isListSep text).map pyStripList).filter (· ≠ [])

/-- `_has_sentence_punc(text, lang)`. -/
def _has_sentence_punc (text : List Char) (lang : Option Lang) : Bool :=
  if lang = some .zh then text.any isSentTermZh else text.any isSentTermLatin

/-- `_is_word_like(unit, lang)`. -/
def _is_word_like (unit : List Char) (lang : Option Lang) : Bool :=
  if unit = [] then false
  else
    match lang with
    | some .en | some .de =>
      if unit.any isPyWs then false else unit.length ≤ 32
    | some .ko => ! unit.any isPyWs
    | some .zh => (unit.filter (fun c => ! isPyWs c)).length ≤ 3
    | _ => ! unit.any isPyWs

/-- `_decide_list_type(items, lang)`.  The word-like fraction is an exact
rational here; the Python code compares the float quotient against the
float literal `0.7`, which agrees with the rational comparison at every
fraction a real item list can produce (float division is correctly
rounded and monotone). -/
def _decide_list_type (items : List (List Char)) (lang : Option Lang) : QueryType :=
  if items = [] then .word_list
  else
    let word_like_count := (items.filter (fun it => _is_word_like it lang)).length
    let ratio : ℚ := (word_like_count : ℚ) / (items.length : ℚ)
    if ratio ≥ 7 / 10 then .word_list else .phrase_list

/-- The Korean sentence-final suffixes of the regex in
`_looks_like_sentence` (the alternation `인가요?` contributes `인가요` and
`인가`, both already listed). -/
def koSentenceEndings : List (List Char) :=
  ["다".data, "이다".data, "했다".data, "합니다".data, "했습니다".data,
   "했어요".data, "입니다".data, "입니 다".data, "인가요".data, "인가".data,
   "네요".data, "군요".data, "겠어요".data, "겠습니다".data]

/-- The trailing class `["'’”\)\s]` of that regex. -/
def isKoTrailing (c : Char) : Bool :=
  c = '"' || c = '\'' || c = '’' || c = '”' || c = ')' || isPyWs c

/-- `re.search(r"(다|이다|...)["'’”\)\s]*$", stripped)`: after removing the
trailing quote/paren/space run, the text ends in one of the suffixes. -/
def koSuffixMatch (stripped : List Char) : Bool :=
  let core := (stripped.reverse.dropWhile isKoTrailing).reverse
  koSentenceEndings.any (fun suf => suf.isSuffixOf core)

/-- `_looks_like_sentence(text, lang)`. -/
def _looks_like_sentence (text : List Char) (lang : Option Lang) : Bool :=
  if text = [] then false
  else
    let stripped := pyStripList text
    if lang = some .ko && ! _has_sentence_punc stripped lang
        && 10 ≤ stripped.length && koSuffixMatch stripped then true
    else if _has_sentence_punc stripped lang
        && (3 ≤ (pyWords stripped).length
            || ((lang = some .ko || lang = some .zh) && 10 ≤ stripped.length)) then true
    else if 6 ≤ (pyWords stripped).length && 40 ≤ stripped.length then true
    else if lang = some .zh
        && 20 ≤ (stripped.filter (fun c => ! isPyWs c)).length then true
    else false

/-- `_decide_word_or_phrase(text, lang)`. -/
def _decide_word_or_phrase (text : List Char) (lang : Option Lang) : QueryType :=
  if text = [] then .word
  else
    match lang with
    | some .en | some .de | some .ko =>
      if (pyWords text).length ≤ 1 then .word else .phrase
    | some .zh =>
      if (text.filter (fun c => ! isPyWs c)).length ≤ 3 then .word else .phrase
    | _ =>
      if (pyWords text).length ≤ 1 then .word else .phrase

/-- `QueryAnalysisResult` (pydantic model). -/
structure QueryAnalysisResult where
  raw_query : String
  normalized_query : String
  query_type : QueryType
  units : List String
  query_lang : Option Lang
deriving DecidableEq, Repr

/-- The `query_lang` resolution inlined at the top of `analyze_query`:
higher character-class score wins, ties (including both zero) go to
`native_lang`. -/
def resolveQueryLang (normalized : List Char) (native_lang target_lang : Lang) : Lang :=
  let native_score := _lang_score normalized native_lang
  let target_score := _lang_score normalized target_lang
  if native_score > 0 || target_score > 0 then
    if native_score > target_score then native_lang
    else if target_score > native_score then target_lang
    else native_lang
  else native_lang

/-- `analyze_query(query, native_lang, target_lang)`; the Python
`ValueError` on an empty normalized query becomes the `Except.error`
branch. -/
def analyze_query (query : String) (native_lang target_lang : Lang) :
    Except String QueryAnalysisResult :=
  let raw_query := query
  let normalized := normalizeChars query.data
  if normalized = [] then
    .error "QueryAnalyzer: query is empty"
  else
    let query_lang := resolveQueryLang normalized native_lang target_lang
    let lang : Option Lang := some query_lang
    let para : Option QueryAnalysisResult :=
      if _looks_like_paragraph normalized lang then
        let sentences := _split_sentences normalized lang
        if sentences = [] then none
        else some ⟨raw_query, ⟨normalized⟩, .paragraph,
          sentences.map (fun s => ⟨s⟩), some query_lang⟩
      else none
    match para with
    | some r => .ok r
    | none =>
      let list_items := _split_list_candidates normalized
      if 2 ≤ list_items.length
          && list_items.countP (fun it => _looks_like_sentence it lang) = 0 then
        .ok ⟨raw_query, ⟨normalized⟩, _decide_list_type list_items lang,
          list_items.map (fun s => ⟨s⟩), some query_lang⟩
      else
        let qtype : QueryType :=
          if _looks_like_sentence normalized lang then .sentence
          else _decide_word_or_phrase normalized lang
        .ok ⟨raw_query, ⟨normalized⟩, qtype, [⟨normalized⟩], some query_lang⟩

/-! ## JSON-shaped values

`entry.model_dump()` turns a pydantic answer into nested dicts, lists and
scalars; `JValue` is that value space.  `get?` models `dict.get` (it yields
`none` off a dict, where Python raise an `AttributeError` that the
surrounding request handler turns into a 500 — no claim quantifies over
such a crash). -/

inductive JValue where
  | null
  | bool (b : Bool)
  | num (n : Int)
  | str (s : String)
  | arr (elems : List JValue)
  | obj (fields : List (String × JValue))

def jLookup : List (String × JValue) → String → Option JValue
  | [], _ => none
  | (k, v) :: rest, key => if k = key then some v else jLookup rest key

/-- `data.get(k)`. -/
def JValue.get? : JValue → String → Option JValue
  | .obj fs, k => jLookup fs k
  | _, _ => none

/-- `k in data`. -/
def JValue.hasKey : JValue → String → Bool
  | .obj fs, k => fs.any (fun p => p.1 = k)
  | _, _ => false

/-- Python truthiness of a JSON value. -/
def JValue.truthy : JValue → Bool
  | .null => false
  | .bool b => b
  | .num n => n ≠ 0
  | .str s => s ≠ ""
  | .arr xs => ! xs.isEmpty
  | .obj fs => ! fs.isEmpty

/-- Truthiness of a `dict.get` result (`None` is falsy). -/
def truthyOpt : Option JValue → Bool
  | none => false
  | some v => v.truthy

/-- `data.get(k) or dflt`. -/
def jGetOr (v : JValue) (k : String) (dflt : JValue) : JValue :=
  match v.get? k with
  | some w => if w.truthy then w else dflt
  | none => dflt

/-- The elements iterated by a `for` loop over a JSON value (the dumped
models only ever put lists in the looped-over fields). -/
def JValue.items : JValue → List JValue
  | .arr xs => xs
  | _ => []

/-- `(data.get(k) or [])` as the element list it is iterated as. -/
def jGetItems (v : JValue) (k : String) : List JValue :=
  (jGetOr v k (.arr [])).items

mutual

/-- Python `repr` of a JSON value (`str(...)` of a non-string lands here). -/
def pyRepr : JValue → String
  | .null => "None"
  | .bool true => "True"
  | .bool false => "False"
  | .num n => toString n
  | .str s => "'" ++ s ++ "'"
  | .arr xs => "[" ++ String.intercalate ", " (pyReprList xs) ++ "]"
  | .obj fs => "\x7b" ++ String.intercalate ", " (pyReprFields fs) ++ "\x7d"

def pyReprList : List JValue → List String
  | [] => []
  | v :: rest => pyRepr v :: pyReprList rest

def pyReprFields : List (String × JValue) → List String
  | [] => []
  | (k, v) :: rest => ("'" ++ k ++ "': " ++ pyRepr v) :: pyReprFields rest

end

/-- Python `str` of a JSON value. -/
def pyStr : JValue → String
  | .str s => s
  | v => pyRepr v

/-- What an f-string interpolates for a `dict.get` result. -/
def pyShow : Option JValue → String
  | none => "None"
  | some v => pyStr v

/-! ## Verifier schema (src/backend/schemas/verifier/common.py) -/

/-- `HallucinationType`. -/
inductive HallucinationType where
  | none | semantic | factual | contextual | translation
deriving DecidableEq, Repr

/-- `VerifierMetadata` (optional logging payload). -/
structure VerifierMetadata where
  mode : Option String := Option.none
  query_type : Option String := Option.none
  source_lang : Option String := Option.none
  target_lang : Option String := Option.none
  field : Option String := Option.none
deriving DecidableEq, Repr

/-- `VerifierResult`.  `hallucination_score` is a float in `[0, 1]`; the
code only ever compares it against the decimal threshold, which the
rational model captures exactly. -/
structure VerifierResult where
  has_hallucination : Bool
  hallucination_score : ℚ
  type : HallucinationType
  comment : String
  metadata : Option VerifierMetadata := Option.none
deriving DecidableEq, Repr

/-- `VerifierResult.is_safe(threshold)`. -/
def VerifierResult.is_safe (r : VerifierResult) (threshold : ℚ) : Bool :=
  (! r.has_hallucination) || decide (r.hallucination_score ≤ threshold)

/-- `VerifierResult.needs_regeneration(threshold)`. -/
def VerifierResult.needs_regeneration (r : VerifierResult) (threshold : ℚ) : Bool :=
  ! r.is_safe threshold

/-! ## Verifier client (src/backend/utils/verifier_client.py) -/

/-- What one call to the verifier LLM can come back as, seen from
`run_verifier`'s `try` block:
* `raises` — `generate_content` (or anything in the block) raised;
* `parsed r` — `response.parsed` held a `VerifierResult`;
* `rawValid r` — `parsed` was `None`, the raw text was non-blank and
  validated to `r`;
* `rawInvalid` — `parsed` was `None`, the raw text was non-blank but
  failed validation (a `ValidationError`);
* `empty` — `parsed` was `None` and the text missing or blank. -/
inductive VerifierCallResult where
  | raises
  | parsed (r : VerifierResult)
  | rawValid (r : VerifierResult)
  | rawInvalid
  | empty
deriving DecidableEq, Repr

/-- The fail-open fallback verdict `run_verifier` substitutes on failure. -/
def neutralVerdict : VerifierResult :=
  ⟨false, 0, .none, "", Option.none⟩

/-- `run_verifier`, as the total function from the call's outcome to the
returned `VerifierResult`: every failure is caught (the
`ValidationError`/`RuntimeError` handler or the catch-all `Exception`
handler) and replaced by the neutral verdict. -/
def run_verifier : VerifierCallResult → VerifierResult
  | .parsed r => r
  | .rawValid r => r
  | .raises => neutralVerdict
  | .rawInvalid => neutralVerdict
  | .empty => neutralVerdict

/-! ## Schema selection and orchestration (src/backend/main.py) -/

/-- The six generator response schemas. -/
inductive GeneratorSchema where
  | WordDictResponse
  | EncyclopediaResponse
  | SentenceL1toL2Response
  | SentenceL2toL1Response
  | ParagraphL1toL2Response
  | ParagraphL2toL1Response
deriving DecidableEq, Repr

/-- `select_schema(mode, analysis, native_lang)`. -/
def select_schema (mode : String) (analysis : QueryAnalysisResult)
    (native_lang : Lang) : GeneratorSchema :=
  if mode = "encyclopedia" then .EncyclopediaResponse
  else if analysis.query_type = .word ∨ analysis.query_type = .word_list
      ∨ analysis.query_type = .phrase ∨ analysis.query_type = .phrase_list then
    .WordDictResponse
  else if analysis.query_type = .sentence then
    if some native_lang = analysis.query_lang then .SentenceL1toL2Response
    else .SentenceL2toL1Response
  else
    if some native_lang = analysis.query_lang then .ParagraphL1toL2Response
    else .ParagraphL2toL1Response

/-- The `query_analysis` block selection that both
`build_verifier_answer_text` and `_extract_query_analysis_status` inline
verbatim: the top-level `query_analysis` when the key exists, else the one
nested in a dict-valued `sentence` block, else `None` (also for a non-dict
input, whose `isinstance` guard stops the selection). -/
def qaDictOf (data : JValue) : Option JValue :=
  match data with
  | .obj _ =>
    if data.hasKey "query_analysis" then data.get? "query_analysis"
    else
      match data.get? "sentence" with
      | some (.obj sfs) =>
        if JValue.hasKey (.obj sfs) "query_analysis" then
          JValue.get? (.obj sfs) "query_analysis"
        else Option.none
      | _ => Option.none
  | _ => Option.none

/-- `_extract_query_analysis_status(entry)` over the dumped answer. -/
def _extract_query_analysis_status (entry : JValue) : Option String :=
  match qaDictOf entry with
  | some (.obj qfs) =>
    match jLookup qfs "status" with
    | some (.str s) => some s
    | _ => Option.none
  | _ => Option.none

/-- `VERIFIER_HALLUCINATION_THRESHOLD = 0.4`. -/
def VERIFIER_HALLUCINATION_THRESHOLD : ℚ := 0.4

/-- What one request hands back, plus how often the two downstream
services were invoked for it. -/
structure PipelineOutcome where
  response : JValue
  verifier_calls : Nat
  regen_calls : Nat

/-- The decision tail of `api_search`, from the first parsed generation
onward.  `entry` is the dumped first answer; `verifier` is what
`run_verifier` would hand back were it invoked, `regen_entry` what the
second generation call would parse to — both externally produced, so they
enter as oracle arguments. -/
def api_search_after_first_generation (entry : JValue)
    (verifier : VerifierResult) (regen_entry : JValue) : PipelineOutcome :=
  if _extract_query_analysis_status entry ≠ some "VALID" then
    ⟨entry, 0, 0⟩
  else if ! verifier.needs_regeneration VERIFIER_HALLUCINATION_THRESHOLD then
    ⟨entry, 1, 0⟩
  else
    ⟨regen_entry, 1, 1⟩

/-! ## Answer summarizer (`build_verifier_answer_text` in src/backend/main.py)

The Python function mutates a local `lines` list; here every block is the
list of lines it appends, concatenated in the order the source appends
them.  `pfx` stands for the Python parameter named `prefix`. -/

/-- `x or {}`. -/
def pyOrEmptyDict (v : JValue) : JValue :=
  if v.truthy then v else .obj []

/-- The word-explanation loop shared verbatim by the two sentence-card
renderers (2nd-tier core fields, then 3rd-tier examples and
alternatives). -/
def renderWordExplanation (pfx : String)
    (include_word_core include_word_examples include_word_alternatives : Bool)
    (we : JValue) : List String :=
  (if include_word_core then
    [pfx ++ "    · l2_word: " ++ pyShow (we.get? "l2_word"),
     pfx ++ "      meaning_l1: " ++ pyShow (we.get? "meaning_l1")]
    ++ (if truthyOpt (we.get? "explanation_l1") then
          [pfx ++ "      explanation_l1: " ++ pyShow (we.get? "explanation_l1")]
        else [])
   else [])
  ++ (if include_word_examples then
        let examples := jGetItems we "examples"
        if ! examples.isEmpty then
          (pfx ++ "      examples:") ::
          examples.flatMap (fun ex =>
            [pfx ++ "        - src: " ++ pyShow (ex.get? "source_sentence"),
             pfx ++ "          tgt: " ++ pyShow (ex.get? "target_sentence")])
        else []
      else [])
  ++ (if include_word_alternatives then
        let alts_l2 := jGetItems we "alternatives_l2"
        if ! alts_l2.isEmpty then
          (pfx ++ "      alternatives_l2:") ::
          alts_l2.map (fun alt => pfx ++ "        - " ++ pyStr alt)
        else []
      else [])

/-- `render_sentence_l1_to_l2(sent_block, word_expls, ...)`. -/
def render_sentence_l1_to_l2 (sent_block : JValue) (word_expls : List JValue)
    (include_word_core include_word_examples include_word_alternatives : Bool)
    (pfx : String) : List String :=
  let s := pyOrEmptyDict sent_block
  [pfx ++ "L1→L2 SENTENCE BLOCK",
   pfx ++ "- l1_sentence: " ++ pyShow (s.get? "l1_sentence"),
   pfx ++ "- main_l2_sentence: " ++ pyShow (s.get? "main_l2_sentence")]
  ++ (if ! word_expls.isEmpty then
        (pfx ++ "- word_explanations:") ::
        word_expls.flatMap (renderWordExplanation pfx include_word_core
          include_word_examples include_word_alternatives)
      else [])

/-- `render_sentence_l2_to_l1(sent_block, word_expls, ...)`. -/
def render_sentence_l2_to_l1 (sent_block : JValue) (word_expls : List JValue)
    (include_word_core include_word_examples include_word_alternatives : Bool)
    (pfx : String) : List String :=
  let s := pyOrEmptyDict sent_block
  [pfx ++ "L2→L1 SENTENCE BLOCK",
   pfx ++ "- l2_sentence: " ++ pyShow (s.get? "l2_sentence"),
   pfx ++ "- main_l1_sentence: " ++ pyShow (s.get? "main_l1_sentence")]
  ++ (if truthyOpt (s.get? "sentence_explanation_l1") then
        [pfx ++ "- sentence_explanation_l1: " ++ pyShow (s.get? "sentence_explanation_l1")]
      else [])
  ++ (if ! word_expls.isEmpty then
        (pfx ++ "- word_explanations:") ::
        word_expls.flatMap (renderWordExplanation pfx include_word_core
          include_word_examples include_word_alternatives)
      else [])

/-- One variant of a word/phrase entry (the inner loop of the
`[WORD/PHRASE ENTRIES]` branch). -/
def renderWordVariant (jvar : Nat × JValue) : List String :=
  let j := jvar.1
  let var := jvar.2
  ["    - Variant #" ++ toString (j + 1),
   "      target_text: " ++ pyShow (var.get? "target_text")]
  ++ (if truthyOpt (var.get? "explanation") then
        ["      explanation: " ++ pyShow (var.get? "explanation")]
      else [])
  ++ (let alt_list := jGetItems var "alternatives"
      if ! alt_list.isEmpty then
        "      alternatives:" :: alt_list.map (fun alt => "        - " ++ pyStr alt)
      else [])
  ++ (let examples := jGetItems var "examples"
      match examples with
      | first_ex :: _ =>
        ["      example:",
         "        - src: " ++ pyShow (first_ex.get? "source_sentence"),
         "          tgt: " ++ pyShow (first_ex.get? "target_sentence")]
      | [] => [])
  ++ (let extra_examples := (jGetItems var "examples").drop 1
      if ! extra_examples.isEmpty then
        "      extra_examples:" ::
        extra_examples.flatMap (fun ex =>
          ["        - src: " ++ pyShow (ex.get? "source_sentence"),
           "          tgt: " ++ pyShow (ex.get? "target_sentence")])
      else [])

/-- One entry of the `[WORD/PHRASE ENTRIES]` branch. -/
def renderWordEntry (ient : Nat × JValue) : List String :=
  let idx := ient.1
  let ent := ient.2
  ["- Entry #" ++ toString (idx + 1),
   "  source_text: " ++ pyShow (ent.get? "source_text"),
   "  source_lang: " ++ pyShow (ent.get? "source_lang")
     ++ ", target_lang: " ++ pyShow (ent.get? "target_lang")]
  ++ (let variants := jGetItems ent "variants"
      ("  variants_count: " ++ toString variants.length) ::
      variants.enum.flatMap renderWordVariant)
  ++ [""]

/-- One sentence card of the L1→L2 paragraph branch. -/
def renderParaCardL1toL2 (icard : Nat × JValue) : List String :=
  let i := icard.1
  let card := icard.2
  ("--- Sentence Card #" ++ toString (i + 1) ++ " ---") ::
  (let sent_block := jGetOr (pyOrEmptyDict card) "sentence" (.obj [])
   let we := jGetItems (pyOrEmptyDict card) "word_explanations"
   render_sentence_l1_to_l2 sent_block we true true true "  "
   ++ (let alts := jGetItems sent_block "alternative_l2_sentences"
       if ! alts.isEmpty then
         "  alternative_l2_sentences:" :: alts.map (fun alt => "    - " ++ pyStr alt)
       else []))

/-- One sentence card of the L2→L1 paragraph branch. -/
def renderParaCardL2toL1 (icard : Nat × JValue) : List String :=
  let i := icard.1
  let card := icard.2
  ("--- Sentence Card #" ++ toString (i + 1) ++ " ---") ::
  (let sent_block := jGetOr (pyOrEmptyDict card) "sentence" (.obj [])
   let we := jGetItems (pyOrEmptyDict card) "word_explanations"
   render_sentence_l2_to_l1 sent_block we true true true "  ")

/-- The `query_analysis` header lines. -/
def qaHeaderLines (data : JValue) : List String :=
  match qaDictOf data with
  | some (.obj qfs) =>
    (match jLookup qfs "status" with
     | some .null => []
     | some v => ["query_analysis.status=" ++ pyStr v]
     | none => [])
    ++ (match jLookup qfs "reason_l1" with
        | some .null => []
        | some v => ["query_analysis.reason_l1=" ++ pyStr v]
        | none => [])
  | _ => []

/-- The mode/query-type specific body of the digest. -/
def verifierBodyLines (data : JValue) (mode_norm qtype : String) : List String :=
  if mode_norm = "dict" then
    if qtype = "word" ∨ qtype = "word_list" ∨ qtype = "phrase" ∨ qtype = "phrase_list" then
      "[WORD/PHRASE ENTRIES]" :: (jGetItems data "entries").enum.flatMap renderWordEntry
    else if qtype = "sentence" then
      "[SENTENCE MODE]" ::
      (let sent_block := jGetOr data "sentence" (.obj [])
       let word_expls := jGetItems data "word_explanations"
       (if sent_block.hasKey "l1_sentence" then
          render_sentence_l1_to_l2 sent_block word_expls true true true ""
          ++ (let alts := jGetItems sent_block "alternative_l2_sentences"
              if ! alts.isEmpty then
                "alternative_l2_sentences:" :: alts.map (fun alt => "- " ++ pyStr alt)
              else [])
        else if sent_block.hasKey "l2_sentence" && sent_block.hasKey "main_l1_sentence" then
          render_sentence_l2_to_l1 sent_block word_expls true true true ""
        else
          ["Unknown sentence schema. RAW sentence block:", pyStr sent_block])
       ++ [""])
    else
      "[PARAGRAPH MODE]" ::
      (if data.hasKey "l1_paragraph" then
        ["Direction: L1 → L2 (ParagraphL1toL2Response)",
         "L1 paragraph:",
         pyStr (jGetOr data "l1_paragraph" (.str "")),
         "l1_lang: " ++ pyShow (data.get? "l1_lang")
           ++ ", l2_lang: " ++ pyShow (data.get? "l2_lang"),
         "",
         "Sentence cards (L1→L2):"]
        ++ (jGetItems data "sentence_cards").enum.flatMap renderParaCardL1toL2
      else if data.hasKey "l2_paragraph" then
        ["Direction: L2 → L1 (ParagraphL2toL1Response)",
         "L2 paragraph:",
         pyStr (jGetOr data "l2_paragraph" (.str "")),
         "l2_lang: " ++ pyShow (data.get? "l2_lang")
           ++ ", l1_lang: " ++ pyShow (data.get? "l1_lang"),
         "",
         "Paragraph-level translation and explanation:",
         "- paragraph_l1_translation: " ++ pyShow (data.get? "paragraph_l1_translation")]
        ++ (if truthyOpt (data.get? "paragraph_content_explanation_l1") then
              ["- paragraph_content_explanation_l1: "
                ++ pyShow (data.get? "paragraph_content_explanation_l1")]
            else [])
        ++ ["", "Sentence cards (L2→L1):"]
        ++ (jGetItems data "sentence_cards").enum.flatMap renderParaCardL2toL1
      else
        ["Unknown paragraph schema. RAW data:", pyStr data])
  else
    "[ENCYCLOPEDIA ANSWER]" ::
    (let key_terms := jGetItems data "key_terms"
     (if ! key_terms.isEmpty then
        "key_terms:" :: key_terms.flatMap (fun kt =>
          ["- term: " ++ pyShow (kt.get? "term"),
           "  definition: " ++ pyShow (kt.get? "definition")])
      else [])
     ++ ["", "simplified_explanation:", pyStr (jGetOr data "simplified_explanation" (.str ""))]
     ++ (if truthyOpt (data.get? "input_text") then
           ["", "input_text:", pyStr (jGetOr data "input_text" (.str ""))]
         else [])
     ++ (if truthyOpt (data.get? "usage_context") then
           ["", "usage_context:", pyStr (jGetOr data "usage_context" (.str ""))]
         else [])
     ++ (if ! key_terms.isEmpty then
           if key_terms.any (fun kt => truthyOpt (kt.get? "analogy")) then
             ["", "key_term_analogies:"]
             ++ key_terms.flatMap (fun kt =>
                  if truthyOpt (kt.get? "analogy") then
                    ["- term: " ++ pyShow (kt.get? "term"),
                     "  analogy: " ++ pyShow (kt.get? "analogy")]
                  else [])
           else []
         else [])
     ++ (if truthyOpt (data.get? "extra_notes") then
           ["", "extra_notes:", pyStr (jGetOr data "extra_notes" (.str ""))]
         else []))

/-- `MAX_CHARS = 4000`. -/
def MAX_CHARS : Nat := 4000

/-- The fixed truncation marker appended after the hard cut. -/
def TRUNCATION_MARKER : String := "\n... [TRUNCATED FOR VERIFIER]"

/-- All lines of `build_verifier_answer_text` before the length cut, in
append order: fixed header, query-analysis echo, blank line, body. -/
def verifierLines (entry : JValue) (mode query_type : String) : List String :=
  let mode_norm := pyLower (pyStrip mode)
  let qtype := pyLower (pyStrip query_type)
  ["[AdapDict answer summary for Verifier]",
   "mode=" ++ mode_norm ++ ", query_type=" ++ qtype]
  ++ qaHeaderLines entry
  ++ [""]
  ++ verifierBodyLines entry mode_norm qtype

/-- `"\n".join(lines)`. -/
def pyJoinLines : List String → String
  | [] => ""
  | [l] => l
  | l :: rest => l ++ "\n" ++ pyJoinLines rest

/-- `build_verifier_answer_text(entry, mode, query_type)`: join the lines,
then hard-cut at `MAX_CHARS` characters and append the truncation
marker. -/
def build_verifier_answer_text (entry : JValue) (mode query_type : String) : String :=
  let verifier_text := pyJoinLines (verifierLines entry mode query_type)
  if verifier_text.length > MAX_CHARS then
    String.mk (verifier_text.data.take MAX_CHARS) ++ TRUNCATION_MARKER
  else
    verifier_text

/-! ## Rule-based prompt composer (src/backend/prompt_rule.py)

Every text block below is the corresponding Python f-string with its
placeholders turned into string concatenation; the composer is a pure
function of the analysis result and the profile fields. -/

/-- The wire form of a `LangCode`. -/
def Lang.code : Lang → String
  | .ko => "ko"
  | .en => "en"
  | .zh => "zh"
  | .de => "de"

/-- The wire form of a `QueryType`. -/
def QueryType.code : QueryType → String
  | .word => "word"
  | .word_list => "word_list"
  | .phrase => "phrase"
  | .phrase_list => "phrase_list"
  | .sentence => "sentence"
  | .paragraph => "paragraph"

/-- `_normalize_mode(mode)`. -/
def _normalize_mode (mode : String) : String :=
  let m := pyLower (pyStrip mode)
  if m = "dict" ∨ m = "dictionary" then "dict" else "encyclopedia"

/-- `_direction(query_lang, native_lang, target_lang)`. -/
def _direction (query_lang native_lang target_lang : Lang) : String :=
  if query_lang = native_lang then "native_to_target"
  else if query_lang = target_lang then "target_to_native"
  else "native_to_target"

/-- `_join_units(units)`. -/
def _join_units (units : List String) : String :=
  match units with
  | [] => ""
  | [u] => u
  | _ =>
    String.intercalate "\n"
      (units.enum.map (fun iu => toString (iu.1 + 1) ++ ". " ++ iu.2))

/-- `_education_label(education)`. -/
def _education_label (education : String) : String :=
  let e := pyLower (pyStrip education)
  if e = "elementary" then "elementary school student"
  else if e = "middle" then "middle school student"
  else if e = "high" then "high school student"
  else if e = "bachelor" then "undergraduate student"
  else if e = "master" then "master's student"
  else if e = "doctor" then "doctoral-level learner"
  else "intermediate adult learner"

/-- `_level_guidance(education)`. -/
def _level_guidance (education : String) : String :=
  let e := pyLower (pyStrip education)
  if e = "elementary" then
    "Level: Elementary\n" ++
    "- Technical terms: keep exact; add very short plain definition.\n" ++
    "- Lexical: basic daily words; technical terms from the user's field are allowed but must be explained in very simple language.\n" ++
    "- Syntax: very short simple sentences; no subordinate clauses.\n" ++
    "- Explanation: direct, concrete, minimal detail. Use friendly and clear emojis frequently to support understanding (about 1 emoji per clause is okay).\n" ++
    "- Abstraction: fully concrete; no invisible mechanisms.\n" ++
    "- Examples: everyday context plus very simple field-related examples; 1-sentence examples.\n"
  else if e = "middle" then
    "Level: Middle School\n" ++
    "- Technical terms: unchanged; brief intuitive explanation.\n" ++
    "- Lexical: common words; basic academic vocab with clarification.\n" ++
    "- Syntax: simple compound sentences; basic connectors.\n" ++
    "- Explanation: idea → reason → short analogy/example.\n" ++
    "- Abstraction: light cause–effect reasoning.\n" ++
    "- Examples: simple academic contexts; 1–2 sentence scenarios.\n" ++
    "- Style: use emojis sparingly (e.g., 1 per 2–3 sentences) only when they help emphasize or clarify meaning.\n"
  else if e = "high" then
    "Level: High School\n" ++
    "- Technical terms: unchanged; clarify when needed.\n" ++
    "- Lexical: basic academic vocab allowed.\n" ++
    "- Syntax: clear compound/complex sentences (1–2 ideas each).\n" ++
    "- Explanation: intuition → mechanism → limitation.\n" ++
    "- Abstraction: medium-level; simplified models/processes.\n" ++
    "- Examples: real-world + academic mix; 2–3 sentence cases.\n"
  else if e = "bachelor" then
    "Level: Bachelor\n" ++
    "- Technical terms: used freely and precisely.\n" ++
    "- Lexical: semi-specialized terms; define only if useful.\n" ++
    "- Syntax: complex sentences; avoid heavy nesting.\n" ++
    "- Explanation: concept → properties → concise example.\n" ++
    "- Abstraction: medium–high; brief theory framing.\n" ++
    "- Examples: empirical or policy-related.\n"
  else if e = "master" then
    "Level: Master\n" ++
    "- Technical terms: fully used; define only unfamiliar items.\n" ++
    "- Lexical: domain terminology encouraged.\n" ++
    "- Syntax: academic structures; higher information density.\n" ++
    "- Explanation: assumption → mechanism → implication.\n" ++
    "- Abstraction: high-level; models and causal reasoning.\n" ++
    "- Examples: simplified research-oriented cases.\n"
  else if e = "doctor" then
    "Level: Doctoral\n" ++
    "- Technical terms: exact and precise; fine distinctions.\n" ++
    "- Lexical: unrestricted domain-theoretical vocabulary.\n" ++
    "- Syntax: advanced academic structures; inference chains.\n" ++
    "- Explanation: compressed, mechanism-centered; alternatives allowed.\n" ++
    "- Abstraction: very high; model-level and theoretical logic.\n" ++
    "- Examples: research-level cases (trade-offs, identification issues).\n"
  else
    "Level: Intermediate Adult\n" ++
    "- Technical terms unchanged.\n" ++
    "- Clear vocabulary; moderate complexity.\n" ++
    "- Balanced explanations with brief definitions.\n" ++
    "- Moderate abstraction.\n" ++
    "- Everyday + academic examples.\n"

/-- The dictionary-mode GENERAL-field domain block. -/
def domainBlockDictGeneral : String :=
"[Domain behavior for dictionary mode]

In dictionary mode with a GENERAL field:

- You MUST focus on the general, most common everyday senses of the query.
- You MUST NOT restrict the meaning to a narrow technical sub-domain
  unless the query text itself clearly demands it (e.g., contains explicit technical notation or jargon).
- If a word also has specialized technical meanings in particular fields,
  you may briefly mention them only after the general sense, and only if they are clearly helpful for the user.

These rules OVERRIDE any later generic domain hints in this prompt whenever they conflict.
"

/-- The dictionary-mode SPECIFIC-field domain block. -/
def domainBlockDictSpecific (field : String) : String :=
"[Domain behavior for dictionary mode]

In dictionary mode with a SPECIFIC field:

- The field is '" ++ field ++ "' and dictionary mode is FIELD-EXCLUSIVE.
- You MUST ONLY output senses, translations, explanations, examples, and alternatives
  that belong to the '" ++ field ++ "' domain.
- You MUST NOT mention general or out-of-field senses, even as secondary background.
- For example, if field = \"finance\" and the query is \"interest\",
  you MUST only output the financial sense (e.g., '이자') and MUST NOT mention
  the general '관심/흥미' sense.

These rules OVERRIDE any later generic domain hints in this prompt whenever they conflict.
"

/-- The encyclopedia-mode domain block. -/
def domainBlockEncyclopedia (field : String) : String :=
"[Domain behavior for encyclopedia mode]

In encyclopedia mode:

- The field '" ++ field ++ "' describes the user's study area.
- When multiple interpretations exist, you should prioritize explanations,
  examples, and analogies that are relevant to this field.
- However, you may still mention general meanings or cross-domain background
  when it helps understanding.
"

/-- The `domain_block` selection in `generate_prompt_rule`. -/
def domainBlock (m field_norm field : String) : String :=
  if m = "dict" then
    if field_norm = "" ∨ field_norm = "general" then domainBlockDictGeneral
    else domainBlockDictSpecific field
  else domainBlockEncyclopedia field

/-- The common `header` f-string of `generate_prompt_rule`: role preamble,
schema directive, level block, domain block, and the STEP-0 query
validation contract. -/
def promptHeader (native_lang target_lang : Lang) (edu_label education field : String)
    (qtype : QueryType) (m : String) (level_block domain_block : String) : String :=
"
You are the core reasoning engine of a multi-lingual learning dictionary called \"AdapDict\".

If query_analysis.status != \"VALID\", you MUST ignore all mode-specific instructions below and leave non-query_analysis fields empty.

- User native language (L1): " ++ native_lang.code ++ "
- User target language (L2): " ++ target_lang.code ++ "
- User education level: " ++ edu_label ++ " (code: " ++ education ++ ")
- User field of study: " ++ field ++ "
- Query type: " ++ qtype.code ++ "
- Mode: " ++ (if m = "dict" then "dictionary" else "encyclopedia") ++ "

You MUST strictly follow the server-side JSON schema given via the API (response_schema).
Do NOT invent new fields or change the schema structure.
The API will parse your output directly into a typed schema, so you must stay consistent.

[User level adaptation guidelines]
" ++ level_block ++ "

" ++ domain_block ++ "
[STEP 0: Query validation and query_analysis]

Before generating any dictionary or encyclopedia content, you MUST first evaluate whether the user's query itself is valid for this system.

You MUST always fill the top-level field \"query_analysis\" in the JSON response with the following structure:

- query_analysis.status: one of
  - \"VALID\"
  - \"TYPO\"
  - \"FACTUAL_ERROR\"
  - \"AMBIGUOUS\"
  - \"NONSENSE\"
- query_analysis.reason_l1:
  a short, user-facing explanation written in the user's native language L1 (" ++ native_lang.code ++ ").
- query_analysis.suggestion_queries:
  a list of 0–3 alternative query strings (or null) when appropriate.

Use the statuses as follows:

1) \"VALID\":
  - The query is a reasonable input for this mode and query type.
  - Example: a normal word, phrase, sentence, or paragraph that is meaningful.
  - In this case:
    - Set query_analysis.reason_l1 to a very short confirmation in L1 (" ++ native_lang.code ++ "),
      e.g. \"정상적인 쿼리입니다.\" (if L1 is Korean) or a similar short message in L1.
    - You MUST then generate ALL other fields in the schema normally
      (dictionary/encyclopedia content) according to the mode-specific instructions below.

2) \"TYPO\":
  - The query contains a spelling mistake, malformed word, or non-existent lexical item that is very close to known words.
  - Example: \"applr\" (likely \"apple\" or \"apply\").
  - In this case:
    - query_analysis.reason_l1:
      explain in L1 (" ++ native_lang.code ++ ") what seems wrong and which real words it may correspond to.
      or example, if L1 is Korean:
      \"입력하신 'applr'는 알려진 영어 단어가 아니며, 'apple' 또는 'apply'의 오타일 가능성이 높습니다.\"
    - query_analysis.suggestion_queries:
      include 1–3 likely intended queries, e.g. [\"apple\", \"apply\"].
    - For ALL other fields in the schema (dictionary/encyclopedia content),
      you MUST NOT generate a full answer.
      Instead, keep them empty or minimal (empty strings, empty lists, or null),
      because the user needs to re-enter or correct the query.

3) \"FACTUAL_ERROR\":
  - The query is a sentence or paragraph whose content is clearly false
    with respect to widely known facts.
  - Example: \"지구는 네모다.\", \"서울은 일본의 수도이다.\"
  - In this case:
    - query_analysis.reason_l1:
      clearly state in L1 (" ++ native_lang.code ++ ") that the sentence is factually wrong and briefly provide the correct fact.
      For example, in Korean:
      \"입력하신 문장은 사실과 다릅니다. 지구는 네모가 아니라 둥근 타원체에 가깝습니다.\"
    - query_analysis.suggestion_queries: usually null.
    - You MUST NOT build a full dictionary/encyclopedia explanation
      treating the false statement as if it were true.
      Instead, only give minimal or empty values for the other fields,
      and focus on correcting the misunderstanding via query_analysis.reason_l1.

4) \"AMBIGUOUS\":
  - The query is too vague, incomplete, or underspecified to know what the user really wants.
  - Example: a single letter, a very short fragment, or an extremely broad word with no context.
  - In this case:
    - query_analysis.reason_l1:
      explain in L1 (" ++ native_lang.code ++ ") why the query is ambiguous or incomplete.
    - Suggest in L1 how the user could rewrite the query more specifically
      (e.g., add more words, specify field or sentence).
    - query_analysis.suggestion_queries:
      you may propose 1–3 more precise example queries.
    - DO NOT generate a full dictionary/encyclopedia answer;
      keep other fields minimal or empty.

5) \"NONSENSE\":
  - The query is structurally or semantically nonsensical
    so that no meaningful interpretation can be made.
  - Example: random characters, words in a sequence that do not form a coherent sentence or concept,
    or logically contradictory gibberish.
  - In this case:
    - query_analysis.reason_l1:
      briefly explain in L1 (" ++ native_lang.code ++ ") why the input is not understandable.
    - query_analysis.suggestion_queries:
      usually null, unless you can suggest a clear, sensible alternative.
    - DO NOT generate a full dictionary/encyclopedia answer;
      keep other fields minimal or empty.

[IMPORTANT]

- You MUST always fill query_analysis first.
- If query_analysis.status != \"VALID\":
  - You MUST NOT generate a normal dictionary/encyclopedia answer.
  - All other fields in the schema should be left empty or minimal.
  - The user interface will show query_analysis.reason_l1 as the main message to the user.
- Only when query_analysis.status == \"VALID\" are you allowed to fully populate
  the remaining fields in the schema according to the mode-specific instructions below.
"

/-- The encyclopedia-mode task body. -/
def bodyEncyclopedia (units_block : String) (native_lang : Lang)
    (edu_label field : String) : String :=
"
[Task: Encyclopedia-style explanation]

The user has asked about the following content:

--- QUERY UNITS ---
" ++ units_block ++ "
-------------------

Your job:

1. Treat the input as a concept or a set of related concepts.
2. Explain everything in L1 (" ++ native_lang.code ++ ") only.
3. Adjust difficulty to the user's education level (" ++ edu_label ++ ")
  and field of study (" ++ field ++ "). Use field-appropriate analogies if helpful.
4. Clearly break down:
  - What it is
  - Why it matters
  - Where it is commonly used or seen (usage context)
  - Any intuitive examples or analogies
5. If there are multiple units (list or paragraph), you may:
  - either focus on the central overarching concept, OR
  - briefly cover each unit, grouped logically,
  depending on what makes more sense for understanding.
6. If the concept has a specialized meaning in the user's field (" ++ field ++ "),
  you MUST prioritize that field-specific explanation first, and then optionally
  mention general meanings later as background.

Remember:
- Output must be fully in L1 (" ++ native_lang.code ++ ").
- Follow the structured fields in the EncyclopediaResponse schema
  (e.g., input_text, key_terms, simplified_explanation, usage_context, extra_notes, ...).
"

/-- Dictionary mode, native→target, lexical list body. -/
def bodyDictN2TLexicalList (units_block : String) (native_lang target_lang : Lang)
    (education field : String) : String :=
"
[Task: Bilingual dictionary for multiple lexical items]

The user entered L1 (" ++ native_lang.code ++ ") lexical items (words/phrases).
You receive a list of items and must produce a dictionary-style entry
for EACH item in the list.

--- L1 ITEMS ---
" ++ units_block ++ "
----------------

For EACH item:

1. First, check whether this item is used as a technical term in the user's field (" ++ field ++ ").
  - If a field-specific sense exists, you MUST follow the domain behavior described above
    in the [Domain behavior for dictionary mode] block.
2. Identify the most natural L2 (" ++ target_lang.code ++ ") translation or expression for the primary sense.
3. Provide several alternative L2 expressions with similar meaning
  when relevant (e.g., synonyms, more formal/informal variants).
4. Provide 1~3 example sentences in L2 for that item,
  adjusted to the user's level (" ++ education ++ ") and field (" ++ field ++ ").
5. Add explanations in L1 (" ++ native_lang.code ++ ") that:
  - clarify nuance or typical usage,
  - give simple analogies or concrete situations,
  - highlight any important domain-specific aspects if relevant.

All explanations and meta-explanations must be in L1 (" ++ native_lang.code ++ ").
All example sentences and lexical realizations must be in L2 (" ++ target_lang.code ++ ").

Return one dictionary entry per item, following the AdapDictResponse schema.
"

/-- Dictionary mode, native→target, single word/phrase body. -/
def bodyDictN2TLexicalSingle (units_block : String) (native_lang target_lang : Lang)
    (education field : String) : String :=
"
[Task: Bilingual dictionary for a single lexical item]

The user entered one lexical item in L1 (" ++ native_lang.code ++ ").

--- L1 QUERY ---
" ++ units_block ++ "
---------------

Your job:

1. Detect whether this item has relevant general or field-specific senses,
  and then follow the domain behavior defined in the [Domain behavior for dictionary mode] block.
2. Give the most natural L2 (" ++ target_lang.code ++ ") translation or expression for the primary sense.
3. Provide several alternative L2 expressions with similar meaning
  (synonyms, more casual/formal variants, domain-specific alternatives).
4. Provide 2~4 example sentences in L2 that:
  - match the user's level (" ++ education ++ "),
  - reflect the user's field of study (" ++ field ++ ") when appropriate.
5. Explain in L1 (" ++ native_lang.code ++ "):
  - nuance and typical usage,
  - any register or politeness constraints,
  - common collocations or typical patterns.

Explanations must be in L1.
Translations and examples must be in L2.
Follow the AdapDictResponse schema exactly.
"

/-- Dictionary mode, native→target, paragraph (sentence list) body. -/
def bodyDictN2TParagraph (units_block : String) (native_lang target_lang : Lang)
    (education field : String) : String :=
"
[Task: Sentence-level translation and explanation for multiple sentences]

The user wrote a paragraph in L1 (" ++ native_lang.code ++ ").
You receive it segmented into sentences:

--- L1 SENTENCES ---
" ++ units_block ++ "
--------------------

For EACH sentence:

1. Produce a natural L2 (" ++ target_lang.code ++ ") translation,
  as if you are doing careful writing/translation for a learner.
2. If any key words/phrases in the sentence have specialized meanings in the user's field (" ++ field ++ "),
  you MUST preserve and clarify those domain-specific meanings when required by the [Domain behavior] block.
3. Optionally suggest 1~2 alternative L2 rewrites that:
  - sound more natural,
  - or fit slightly different registers (formal/casual),
  matching the user's level (" ++ education ++ ") and field (" ++ field ++ ").
4. Provide short L1 (" ++ native_lang.code ++ ") explanations when needed
  (e.g., why a certain structure was chosen).

All explanations are in L1.
All translations and alternative rewrites are in L2.

Use the sentence-level schema (SenseSentenceResponse) if configured,
or otherwise a multi-entry dictionary schema.
"

/-- Dictionary mode, native→target, single sentence body. -/
def bodyDictN2TSentence (units_block : String) (native_lang target_lang : Lang)
    (education field : String) : String :=
"
[Task: Sentence translation and enhancement]

The user wrote a single sentence in L1 (" ++ native_lang.code ++ ").

--- L1 SENTENCE ---
" ++ units_block ++ "
-------------------

Your job:

1. Translate the sentence into natural L2 (" ++ target_lang.code ++ "),
  matching the user's level (" ++ education ++ ") and field (" ++ field ++ ").
2. If any key terms in the sentence are used in a field-specific way (" ++ field ++ "),
  you MUST preserve and clarify that domain-specific meaning in your translation,
  consistent with the [Domain behavior for dictionary mode].
3. Provide 1~3 alternative L2 rewrites:
  - one slightly more formal,
  - one slightly more casual or conversational,
  - optionally one that is more domain-specific if " ++ field ++ " suggests it.
4. In L1 (" ++ native_lang.code ++ "), briefly explain:
  - key grammar or expression choices,
  - any important nuances or possible pitfalls,
  - especially how field-specific meanings are reflected in L2.

Explanations must be in L1.
Translations and alternative sentences must be in L2.
Follow the sentence schema (SenseSentenceResponse) when it is used.
"

/-- Dictionary mode, target→native, lexical list body. -/
def bodyDictT2NLexicalList (units_block : String) (native_lang target_lang : Lang)
    (education field : String) : String :=
"
[Task: Understanding-focused dictionary for multiple L2 lexical items]

The user entered several lexical items in L2 (" ++ target_lang.code ++ ").

--- L2 ITEMS ---
" ++ units_block ++ "
----------------

For EACH item:

1. Detect whether this item has general and/or specialized meanings,
  and then follow the domain behavior defined in the [Domain behavior for dictionary mode] block.
2. Provide an accurate L1 (" ++ native_lang.code ++ ") translation or explanation
  for the primary sense.
3. Explain in L1:
  - nuance, register (formal/informal), and common usage,
  - differences from near-synonyms,
  - typical collocations or patterns.
4. Provide 1~2 example sentences in L2 (" ++ target_lang.code ++ ") for each item,
  adjusted to the user's level (" ++ education ++ ") and field (" ++ field ++ ").
5. Optionally suggest a few related L2 expressions or useful phrases,
  but keep the focus on understanding the original items.

All explanations must be in L1.
Examples and lexical realizations are in L2.
Return one dictionary entry per item using the AdapDictResponse schema.
"

/-- Dictionary mode, target→native, single lexical item body. -/
def bodyDictT2NLexicalSingle (units_block : String) (native_lang target_lang : Lang)
    (education field : String) : String :=
"
[Task: Understanding-focused dictionary for a single L2 lexical item]

The user entered one lexical item in L2 (" ++ target_lang.code ++ ").

--- L2 QUERY ---
" ++ units_block ++ "
---------------

Your job:

1. Determine whether this lexical item has general and/or field-specific senses,
  and apply the rules from the [Domain behavior for dictionary mode] block.
2. Provide an L1 (" ++ native_lang.code ++ ") translation or concise paraphrase
  for the primary sense, tuned to the user's level (" ++ education ++ ") and field (" ++ field ++ ").
3. In L1, explain:
  - nuance and typical usage,
  - common collocations,
  - differences from similar words.
4. Provide 2~3 example sentences in L2 (" ++ target_lang.code ++ ") that illustrate usage,
  preferably in contexts related to " ++ field ++ " when appropriate.
5. Optionally propose a few alternative L2 expressions, but keep the focus
  on understanding the original item.

All explanations are in L1.
Examples and lexical forms are in L2.
Follow the AdapDictResponse schema exactly.
"

/-- Dictionary mode, target→native, paragraph (sentence list) body. -/
def bodyDictT2NParagraph (units_block : String) (native_lang target_lang : Lang)
    (education field : String) : String :=
"
[Task: Comprehension and explanation for multiple L2 sentences]

The user wrote a paragraph in L2 (" ++ target_lang.code ++ ").
You receive it segmented into sentences:

--- L2 SENTENCES ---
" ++ units_block ++ "
--------------------

For EACH sentence:

1. Provide an L1 (" ++ native_lang.code ++ ") translation that is natural and clear.
2. In L1, briefly explain:
  - important grammar points,
  - idiomatic expressions or tricky parts,
  - any field-specific terms relevant to " ++ field ++ ", consistent with the [Domain behavior] block.
3. Optionally suggest 1~2 improved L2 versions of each sentence
  (more natural, clearer, or better suited for the user's level " ++ education ++ "),
  keeping field-specific meanings accurate when required.

All meta-explanations must be in L1.
Translations and improved versions are in L1 (translation) + L2 (improved).
Use the sentence schema (SenseSentenceResponse) if configured.
"

/-- Dictionary mode, target→native, single sentence body. -/
def bodyDictT2NSentence (units_block : String) (native_lang target_lang : Lang)
    (education field : String) : String :=
"
[Task: Comprehension and refinement for a single L2 sentence]

The user entered one sentence in L2 (" ++ target_lang.code ++ ").

--- L2 SENTENCE ---
" ++ units_block ++ "
-------------------

Your job:

1. Translate the sentence into L1 (" ++ native_lang.code ++ ") in a way that:
  - is easy to understand at the user's level (" ++ education ++ "),
  - correctly reflects any field-specific meanings in " ++ field ++ "
    according to the [Domain behavior for dictionary mode] block.
2. In L1, explain:
  - grammar or structure,
  - nuance of key phrases,
  - any common mistakes or pitfalls learners make with this pattern,
  - especially clarifying the domain-specific sense if there is both a general and field-specific meaning.
3. Provide 1~2 improved or alternative L2 versions
  (e.g., more natural, more polite, or more context-appropriate),
  while preserving the correct sense as required by the domain rules.

All explanations are in L1.
Only the improved versions are in L2.
Follow the sentence-level schema where applicable.
"

/-- `generate_prompt_rule(analysis, education, field, mode, native_lang,
target_lang)`: normalize the mode, resolve direction and the lexical/list
flags, build the shared header, and append the task body the 9-way branch
selects. -/
def generate_prompt_rule (analysis : QueryAnalysisResult)
    (education field mode : String) (native_lang target_lang : Lang) : String :=
  let m := _normalize_mode mode
  let qtype := analysis.query_type
  let units := analysis.units
  let query_lang := analysis.query_lang.getD native_lang
  let direction := _direction query_lang native_lang target_lang
  let is_list := qtype = .word_list ∨ qtype = .phrase_list ∨ qtype = .paragraph
  let is_lexical := qtype = .word ∨ qtype = .word_list
    ∨ qtype = .phrase ∨ qtype = .phrase_list
  let units_block := _join_units units
  let edu_label := _education_label education
  let level_block := _level_guidance education
  let field_norm := pyLower (pyStrip field)
  let domain_block := domainBlock m field_norm field
  let header := promptHeader native_lang target_lang edu_label education field
    qtype m level_block domain_block
  if m = "encyclopedia" then
    header ++ bodyEncyclopedia units_block native_lang edu_label field
  else if direction = "native_to_target" then
    if is_lexical then
      if is_list then
        header ++ bodyDictN2TLexicalList units_block native_lang target_lang education field
      else
        header ++ bodyDictN2TLexicalSingle units_block native_lang target_lang education field
    else
      if is_list then
        header ++ bodyDictN2TParagraph units_block native_lang target_lang education field
      else
        header ++ bodyDictN2TSentence units_block native_lang target_lang education field
  else
    if is_lexical then
      if is_list then
        header ++ bodyDictT2NLexicalList units_block native_lang target_lang education field
      else
        header ++ bodyDictT2NLexicalSingle units_block native_lang target_lang education field
    else
      if is_list then
        header ++ bodyDictT2NParagraph units_block native_lang target_lang education field
      else
        header ++ bodyDictT2NSentence units_block native_lang target_lang education field

/-! ## Claim C2: the regeneration predicate -/

/-- C2: for every `VerifierResult` and the fixed threshold 0.4,
`needs_regeneration` is true iff `has_hallucination` holds and the score
exceeds 0.4; in particular it is false at a score of exactly 0.4 even when
`has_hallucination` is true. -/
theorem C2_needs_regeneration_iff_score_above_threshold :
    (∀ r : VerifierResult,
      r.needs_regeneration (0.4 : ℚ)
        = (r.has_hallucination && decide ((0.4 : ℚ) < r.hallucination_score)))
    ∧ ∀ (t : HallucinationType) (c : String) (md : Option VerifierMetadata),
        (VerifierResult.mk true (0.4 : ℚ) t c md).needs_regeneration (0.4 : ℚ) = false := by
  constructor
  · intro r
    unfold VerifierResult.needs_regeneration VerifierResult.is_safe
    rw [Bool.not_or, Bool.not_not, ← decide_not, decide_eq_decide.mpr not_le]
  · intro t c md
    unfold VerifierResult.needs_regeneration VerifierResult.is_safe
    norm_num

/-! ## Claim C4: the verifier client fails open -/

/-- C4: `run_verifier` never propagates a failure: when the verifier call
raises, or its response is neither parsed nor validates from raw text,
it returns the neutral verdict (`has_hallucination = false`, score 0,
type `none`), and that verdict never triggers regeneration at the
orchestrator's threshold. -/
theorem C4_run_verifier_fails_open :
    ∀ o : VerifierCallResult,
      (o = .raises ∨ o = .rawInvalid ∨ o = .empty) →
      run_verifier o = neutralVerdict
      ∧ (run_verifier o).has_hallucination = false
      ∧ (run_verifier o).hallucination_score = 0
      ∧ (run_verifier o).type = .none
      ∧ (run_verifier o).needs_regeneration VERIFIER_HALLUCINATION_THRESHOLD = false := by
  rintro o (rfl | rfl | rfl) <;>
    refine ⟨rfl, rfl, rfl, rfl, ?_⟩ <;>
    simp [run_verifier, neutralVerdict, VerifierResult.needs_regeneration,
      VerifierResult.is_safe]

/-- Witness for C4 at the concrete outcome `raises`. -/
theorem C4_witness :
    run_verifier .raises = neutralVerdict
    ∧ (run_verifier .raises).has_hallucination = false
    ∧ (run_verifier .raises).hallucination_score = 0
    ∧ (run_verifier .raises).type = .none
    ∧ (run_verifier .raises).needs_regeneration VERIFIER_HALLUCINATION_THRESHOLD = false :=
  C4_run_verifier_fails_open .raises (Or.inl rfl)

/-! ## Claim C5: the prompt composer is a pure function of its inputs -/

/-- C5: `generate_prompt_rule` is deterministic: two calls with equal
analysis results and equal profile inputs produce character-for-character
identical instruction strings (the embedding is a total pure function, so
equal inputs yield the same output; there is no other state). -/
theorem C5_generate_prompt_rule_deterministic :
    ∀ (a₁ a₂ : QueryAnalysisResult) (e₁ e₂ f₁ f₂ m₁ m₂ : String) (n₁ n₂ t₁ t₂ : Lang),
      a₁ = a₂ → e₁ = e₂ → f₁ = f₂ → m₁ = m₂ → n₁ = n₂ → t₁ = t₂ →
      generate_prompt_rule a₁ e₁ f₁ m₁ n₁ t₁ = generate_prompt_rule a₂ e₂ f₂ m₂ n₂ t₂ := by
  intro a₁ a₂ e₁ e₂ f₁ f₂ m₁ m₂ n₁ n₂ t₁ t₂ ha he hf hm hn ht
  subst ha he hf hm hn ht
  rfl

/-- Witness for C5 at one concrete input pair. -/
theorem C5_witness :
    generate_prompt_rule ⟨"apple", "apple", .word, ["apple"], some .en⟩
        "high" "general" "dict" .ko .en
      = generate_prompt_rule ⟨"apple", "apple", .word, ["apple"], some .en⟩
        "high" "general" "dict" .ko .en :=
  C5_generate_prompt_rule_deterministic _ _ _ _ _ _ _ _ _ _ _ _
    rfl rfl rfl rfl rfl rfl

/-! ## Claims C3 and C10: non-VALID (or missing) status bypasses the
verifier -/

theorem jLookup_isSome_iff_hasKey (fs : List (String × JValue)) (k : String) :
    (jLookup fs k).isSome = JValue.hasKey (.obj fs) k := by
  induction fs with
  | nil => rfl
  | cons p rest ih =>
    obtain ⟨k', v⟩ := p
    simp only [jLookup, JValue.hasKey, List.any_cons]
    by_cases h : k' = k
    · simp [h]
    · simpa [h] using ih

theorem hasKey_of_jLookup_eq_some {fs : List (String × JValue)} {k : String}
    {v : JValue} (h : jLookup fs k = some v) :
    JValue.hasKey (.obj fs) k = true := by
  rw [← jLookup_isSome_iff_hasKey, h]
  rfl

theorem hasKey_eq_false_of_jLookup_eq_none {fs : List (String × JValue)}
    {k : String} (h : jLookup fs k = none) :
    JValue.hasKey (.obj fs) k = false := by
  rw [← jLookup_isSome_iff_hasKey, h]
  rfl

/-- C3: a first answer whose extracted validation status differs from
`VALID` is returned as-is with zero verifier calls (and zero
regenerations), and the status is extracted correctly both from the
top-level `query_analysis` block and from the one nested in the `sentence`
sub-object. -/
theorem C3_nonvalid_status_bypasses_verifier :
    (∀ (entry : JValue) (s : String) (v : VerifierResult) (regen : JValue),
        _extract_query_analysis_status entry = some s → s ≠ "VALID" →
        api_search_after_first_generation entry v regen = ⟨entry, 0, 0⟩)
    ∧ (∀ (fs qfs : List (String × JValue)) (s : String),
        jLookup fs "query_analysis" = some (.obj qfs) →
        jLookup qfs "status" = some (.str s) →
        _extract_query_analysis_status (.obj fs) = some s)
    ∧ (∀ (fs sfs qfs : List (String × JValue)) (s : String),
        jLookup fs "query_analysis" = none →
        jLookup fs "sentence" = some (.obj sfs) →
        jLookup sfs "query_analysis" = some (.obj qfs) →
        jLookup qfs "status" = some (.str s) →
        _extract_query_analysis_status (.obj fs) = some s) := by
  refine ⟨?_, ?_, ?_⟩
  · intro entry s v regen hext hs
    have : _extract_query_analysis_status entry ≠ some "VALID" := by
      rw [hext]; simpa using hs
    simp [api_search_after_first_generation, this]
  · intro fs qfs s hqa hst
    simp [_extract_query_analysis_status, qaDictOf,
      hasKey_of_jLookup_eq_some hqa, JValue.get?, hqa, hst]
  · intro fs sfs qfs s hq hsent hqa hst
    simp [_extract_query_analysis_status, qaDictOf,
      hasKey_eq_false_of_jLookup_eq_none hq, JValue.get?, hsent,
      hasKey_of_jLookup_eq_some hqa, hqa, hst]

/-- Concrete answers for the C3 witness: one with a top-level
`query_analysis`, one with it nested under `sentence`. -/
def c3TopLevelEntry : List (String × JValue) :=
  [("query_analysis", .obj [("status", .str "TYPO"), ("reason_l1", .str "오타입니다")]),
   ("entries", .arr [])]

def c3SentenceInner : List (String × JValue) :=
  [("query_analysis", .obj [("status", .str "AMBIGUOUS")])]

def c3SentenceEntry : List (String × JValue) :=
  [("sentence", .obj c3SentenceInner)]

/-- Witness for C3 at the two concrete shapes. -/
theorem C3_witness :
    api_search_after_first_generation (.obj c3TopLevelEntry)
        ⟨true, 1, .factual, "bad", Option.none⟩ .null
      = ⟨.obj c3TopLevelEntry, 0, 0⟩
    ∧ _extract_query_analysis_status (.obj c3TopLevelEntry) = some "TYPO"
    ∧ _extract_query_analysis_status (.obj c3SentenceEntry) = some "AMBIGUOUS" := by
  refine ⟨?_, ?_, ?_⟩
  · exact C3_nonvalid_status_bypasses_verifier.1 (.obj c3TopLevelEntry) "TYPO"
      ⟨true, 1, .factual, "bad", Option.none⟩ .null
      (C3_nonvalid_status_bypasses_verifier.2.1 c3TopLevelEntry
        [("status", .str "TYPO"), ("reason_l1", .str "오타입니다")] "TYPO" rfl rfl)
      (by decide)
  · exact C3_nonvalid_status_bypasses_verifier.2.1 c3TopLevelEntry
      [("status", .str "TYPO"), ("reason_l1", .str "오타입니다")] "TYPO" rfl rfl
  · exact C3_nonvalid_status_bypasses_verifier.2.2 c3SentenceEntry
      c3SentenceInner [("status", .str "AMBIGUOUS")] "AMBIGUOUS" rfl rfl rfl rfl

/-- C10: when the answer has no `query_analysis` block at the top level or
under `sentence`, or the block is not a dict, or its `status` is not a
string, extraction yields `None` and the orchestrator returns the answer
unchanged with neither a verifier call nor a regeneration. -/
theorem C10_missing_status_treated_as_nonvalid :
    ∀ (entry : JValue) (v : VerifierResult) (regen : JValue),
      (qaDictOf entry = Option.none
        ∨ ∃ qd, qaDictOf entry = some qd
            ∧ ∀ qfs, qd = JValue.obj qfs →
                ∀ sv, jLookup qfs "status" = some sv → ∀ s, sv ≠ JValue.str s) →
      _extract_query_analysis_status entry = Option.none
      ∧ api_search_after_first_generation entry v regen = ⟨entry, 0, 0⟩ := by
  intro entry v regen hyp
  have hext : _extract_query_analysis_status entry = Option.none := by
    rcases hyp with hnone | ⟨qd, hqd, hbad⟩
    · simp [_extract_query_analysis_status, hnone]
    · rw [_extract_query_analysis_status, hqd]
      match qd, hbad with
      | .obj qfs, hbad =>
        cases hst : jLookup qfs "status" with
        | none => simp [hst]
        | some sv =>
          have := hbad qfs rfl sv hst
          cases sv <;> simp_all
      | .null, _ | .bool _, _ | .num _, _ | .str _, _ | .arr _, _ => simp
  refine ⟨hext, ?_⟩
  have : _extract_query_analysis_status entry ≠ some "VALID" := by
    rw [hext]; simp
  simp [api_search_after_first_generation, this]

/-- Witness for C10 at a concrete answer with no `query_analysis` at all. -/
theorem C10_witness :
    _extract_query_analysis_status (.obj [("entries", .arr [])]) = Option.none
    ∧ api_search_after_first_generation (.obj [("entries", .arr [])])
        ⟨true, 1, .factual, "bad", Option.none⟩ .null
      = ⟨.obj [("entries", .arr [])], 0, 0⟩ :=
  C10_missing_status_treated_as_nonvalid (.obj [("entries", .arr [])])
    ⟨true, 1, .factual, "bad", Option.none⟩ .null (Or.inl rfl)

/-! ## Claim C9: the two mode dispatches -/

/-- A concrete analysis result used by the C9 theorems. -/
def c9Analysis : QueryAnalysisResult :=
  ⟨"apple", "apple", .word, ["apple"], some .en⟩

/-- Counterexample to C9 as stated: `'Dict'` lies outside
`{'dict','dictionary','encyclopedia'}`, yet `_normalize_mode` lowercases it
to `'dict'`, so the composer emits the dictionary-mode text — identical to
a `'dict'` request — and the two dispatches agree instead of disagreeing. -/
theorem C9_counterexample :
    ("Dict" ≠ "dict" ∧ "Dict" ≠ "dictionary" ∧ "Dict" ≠ "encyclopedia")
    ∧ _normalize_mode "Dict" = "dict"
    ∧ select_schema "Dict" c9Analysis .ko = .WordDictResponse
    ∧ generate_prompt_rule c9Analysis "high" "general" "Dict" .ko .en
      = generate_prompt_rule c9Analysis "high" "general" "dict" .ko .en := by
  exact ⟨by decide, by decide, rfl, rfl⟩

/-- C9 (amended): for every mode string whose stripped lowercase form is
neither `'dict'` nor `'dictionary'` and which is not exactly
`'encyclopedia'` (e.g. `'Encyclopedia'` or any unrecognized value), the two
dispatches disagree: `select_schema` picks a dictionary-family schema while
`generate_prompt_rule` normalizes the mode to `'encyclopedia'` and composes
the encyclopedia instruction body.  (Case variants of dict such as `'Dict'`
are dispatched to dictionary mode by both, see the counterexample.) -/
theorem C9_mode_dispatch_mismatch :
    ∀ (mode : String) (analysis : QueryAnalysisResult) (nl tl : Lang)
      (education field : String),
      pyLower (pyStrip mode) ≠ "dict" →
      pyLower (pyStrip mode) ≠ "dictionary" →
      mode ≠ "encyclopedia" →
      select_schema mode analysis nl ≠ .EncyclopediaResponse
      ∧ _normalize_mode mode = "encyclopedia"
      ∧ generate_prompt_rule analysis education field mode nl tl
        = promptHeader nl tl (_education_label education) education field
            analysis.query_type "encyclopedia" (_level_guidance education)
            (domainBlock "encyclopedia" (pyLower (pyStrip field)) field)
          ++ bodyEncyclopedia (_join_units analysis.units) nl
              (_education_label education) field := by
  intro mode analysis nl tl education field h1 h2 h3
  have hnm : _normalize_mode mode = "encyclopedia" := by
    unfold _normalize_mode
    rw [if_neg]
    rintro (h | h) <;> [exact h1 h; exact h2 h]
  refine ⟨?_, hnm, ?_⟩
  · unfold select_schema
    rw [if_neg h3]
    split_ifs <;> simp
  · simp only [generate_prompt_rule, hnm]
    rw [if_pos trivial]

/-- Witness for C9 at the concrete mode string `'Encyclopedia'`. -/
theorem C9_witness :
    select_schema "Encyclopedia" c9Analysis .ko ≠ .EncyclopediaResponse
    ∧ _normalize_mode "Encyclopedia" = "encyclopedia"
    ∧ generate_prompt_rule c9Analysis "high" "biology" "Encyclopedia" .ko .en
      = promptHeader .ko .en (_education_label "high") "high" "biology"
          c9Analysis.query_type "encyclopedia" (_level_guidance "high")
          (domainBlock "encyclopedia" (pyLower (pyStrip "biology")) "biology")
        ++ bodyEncyclopedia (_join_units c9Analysis.units) .ko
            (_education_label "high") "biology" :=
  C9_mode_dispatch_mismatch "Encyclopedia" c9Analysis .ko .en "high" "biology"
    (by decide) (by decide) (by decide)

/-! ## Claim C1: the digest length bound and truncation -/

/-- Counterexample to C1 as stated: an encyclopedia answer whose
`simplified_explanation` alone is 5000 characters produces a digest longer
than 4000 characters — the hard cut happens first and the 29-character
truncation marker is appended after it. -/
def c1LongEntry : JValue :=
  .obj [("simplified_explanation", .str (String.mk (List.replicate 5000 'a')))]

theorem c1_full_length :
    (pyJoinLines (verifierLines c1LongEntry "encyclopedia" "word")).length = 5122 := by
  have h1 : verifierLines c1LongEntry "encyclopedia" "word"
      = ["[AdapDict answer summary for Verifier]",
         "mode=encyclopedia, query_type=word", "", "[ENCYCLOPEDIA ANSWER]", "",
         "simplified_explanation:", String.mk (List.replicate 5000 'a')] := rfl
  have h2 : (String.mk (List.replicate 5000 'a')).length = 5000 := by
    show (List.replicate 5000 'a').length = 5000
    exact List.length_replicate 5000 'a'
  rw [h1]
  simp only [pyJoinLines, String.length_append, h2]
  decide

theorem c1_digest_eq :
    build_verifier_answer_text c1LongEntry "encyclopedia" "word"
      = String.mk ((pyJoinLines
          (verifierLines c1LongEntry "encyclopedia" "word")).data.take MAX_CHARS)
        ++ TRUNCATION_MARKER := by
  have hbuild : build_verifier_answer_text c1LongEntry "encyclopedia" "word"
      = if (pyJoinLines (verifierLines c1LongEntry "encyclopedia" "word")).length
            > MAX_CHARS then
          String.mk ((pyJoinLines
            (verifierLines c1LongEntry "encyclopedia" "word")).data.take MAX_CHARS)
            ++ TRUNCATION_MARKER
        else pyJoinLines (verifierLines c1LongEntry "encyclopedia" "word") := rfl
  rw [hbuild, if_pos (by rw [c1_full_length]; decide)]

theorem C1_counterexample :
    ¬ (build_verifier_answer_text c1LongEntry "encyclopedia" "word").length ≤ 4000 := by
  rw [c1_digest_eq, String.length_append]
  have ht : (String.mk ((pyJoinLines
      (verifierLines c1LongEntry "encyclopedia" "word")).data.take MAX_CHARS)).length
      = 4000 := by
    show ((pyJoinLines
      (verifierLines c1LongEntry "encyclopedia" "word")).data.take MAX_CHARS).length = 4000
    rw [List.length_take]
    have hd : (pyJoinLines
        (verifierLines c1LongEntry "encyclopedia" "word")).data.length = 5122 :=
      c1_full_length
    rw [hd]
    decide
  rw [ht]
  have hm : TRUNCATION_MARKER.length = 29 := rfl
  rw [hm]
  omega

/-- C1 (amended): the digest is bounded by 4000 characters plus the fixed
29-character truncation marker; whenever the fully rendered digest exceeds
4000 characters, the returned digest is exactly the first 4000 characters
of the rendering followed by the marker — so it ends with the marker, its
first 4000 characters coincide with the rendering's, and content is
removed only from the end (which drops the last-rendered Tier-3 lines
first); otherwise the digest is the untouched rendering. -/
theorem C1_digest_bounded_and_truncated_from_end :
    ∀ (entry : JValue) (mode query_type : String),
      (build_verifier_answer_text entry mode query_type).length
        ≤ MAX_CHARS + TRUNCATION_MARKER.length
      ∧ (MAX_CHARS <
          (pyJoinLines (verifierLines entry mode query_type)).length →
          build_verifier_answer_text entry mode query_type
            = String.mk ((pyJoinLines
                (verifierLines entry mode query_type)).data.take MAX_CHARS)
              ++ TRUNCATION_MARKER
          ∧ TRUNCATION_MARKER.data.isSuffixOf
              (build_verifier_answer_text entry mode query_type).data
          ∧ (build_verifier_answer_text entry mode query_type).data.take MAX_CHARS
            = (pyJoinLines
                (verifierLines entry mode query_type)).data.take MAX_CHARS)
      ∧ ((pyJoinLines (verifierLines entry mode query_type)).length
            ≤ MAX_CHARS →
          build_verifier_answer_text entry mode query_type
            = pyJoinLines (verifierLines entry mode query_type)) := by
  intro entry mode query_type
  set full := pyJoinLines (verifierLines entry mode query_type) with hfull
  have hbuild : build_verifier_answer_text entry mode query_type
      = if full.length > MAX_CHARS then
          String.mk (full.data.take MAX_CHARS) ++ TRUNCATION_MARKER
        else full := rfl
  by_cases hlen : MAX_CHARS < full.length
  · rw [hbuild, if_pos hlen]
    have htake : (full.data.take MAX_CHARS).length = MAX_CHARS := by
      rw [List.length_take]
      exact Nat.min_eq_left (Nat.le_of_lt hlen)
    refine ⟨?_, fun _ => ⟨rfl, ?_, ?_⟩, fun h => absurd h (Nat.not_le_of_lt hlen)⟩
    · rw [String.length_append]
      have : (String.mk (full.data.take MAX_CHARS)).length = MAX_CHARS := htake
      rw [this]
    · rw [List.isSuffixOf_iff_suffix, String.data_append]
      exact List.suffix_append _ _
    · rw [String.data_append]
      calc ((full.data.take MAX_CHARS) ++ TRUNCATION_MARKER.data).take MAX_CHARS
          = ((full.data.take MAX_CHARS)
              ++ TRUNCATION_MARKER.data).take (full.data.take MAX_CHARS).length := by
            rw [htake]
        _ = full.data.take MAX_CHARS := List.take_left _ _
  · rw [hbuild, if_neg hlen]
    exact ⟨Nat.le_trans (Nat.le_of_not_lt hlen) (Nat.le_add_right _ _),
      fun h => absurd h hlen, fun _ => rfl⟩

/-- Witness for C1 at the concrete over-long answer. -/
theorem C1_witness :
    MAX_CHARS <
      (pyJoinLines (verifierLines c1LongEntry "encyclopedia" "word")).length
    ∧ (build_verifier_answer_text c1LongEntry "encyclopedia" "word"
        = String.mk ((pyJoinLines
            (verifierLines c1LongEntry "encyclopedia" "word")).data.take MAX_CHARS)
          ++ TRUNCATION_MARKER
       ∧ TRUNCATION_MARKER.data.isSuffixOf
          (build_verifier_answer_text c1LongEntry "encyclopedia" "word").data
       ∧ (build_verifier_answer_text c1LongEntry "encyclopedia" "word").data.take MAX_CHARS
        = (pyJoinLines
            (verifierLines c1LongEntry "encyclopedia" "word")).data.take MAX_CHARS) :=
  ⟨by rw [c1_full_length]; decide,
   (C1_digest_bounded_and_truncated_from_end c1LongEntry "encyclopedia" "word").2.1
     (by rw [c1_full_length]; decide)⟩

/-! ## Analyzer lemmas shared by claims C6, C7 and C8 -/

theorem mem_dropWhile_of_mem {p : Char → Bool} {c : Char} :
    ∀ {l : List Char}, c ∈ l → p c = false → c ∈ l.dropWhile p
  | [], h, _ => absurd h (List.not_mem_nil c)
  | a :: l, h, hc => by
    rw [List.dropWhile_cons]
    by_cases ha : p a = true
    · rw [if_pos ha]
      rcases List.mem_cons.mp h with rfl | h'
      · rw [ha] at hc; exact absurd hc (by simp)
      · exact mem_dropWhile_of_mem h' hc
    · rw [if_neg ha]
      exact h

theorem mem_of_mem_dropWhile {p : Char → Bool} {c : Char} :
    ∀ {l : List Char}, c ∈ l.dropWhile p → c ∈ l
  | [], h => h
  | a :: l, h => by
    rw [List.dropWhile_cons] at h
    by_cases ha : p a = true
    · rw [if_pos ha] at h
      exact List.mem_cons_of_mem a (mem_of_mem_dropWhile h)
    · rwa [if_neg ha] at h

theorem mem_of_mem_pyStripList {c : Char} {l : List Char}
    (h : c ∈ pyStripList l) : c ∈ l := by
  unfold pyStripList at h
  rw [List.mem_reverse] at h
  have h1 := mem_of_mem_dropWhile h
  rw [List.mem_reverse] at h1
  exact mem_of_mem_dropWhile h1

theorem pyStripList_ne_nil_of_mem {c : Char} {l : List Char}
    (hc : c ∈ l) (hws : isPyWs c = false) : pyStripList l ≠ [] := by
  intro hnil
  have h1 : c ∈ (l.dropWhile isPyWs).reverse.dropWhile isPyWs := by
    apply mem_dropWhile_of_mem _ hws
    rw [List.mem_reverse]
    exact mem_dropWhile_of_mem hc hws
  unfold pyStripList at hnil
  rw [List.reverse_eq_nil_iff] at hnil
  rw [hnil] at h1
  exact absurd h1 (List.not_mem_nil c)

theorem exists_not_ws_of_pyStripList_ne_nil {l : List Char}
    (h : pyStripList l ≠ []) : ∃ c ∈ l, isPyWs c = false := by
  by_contra hall
  push_neg at hall
  apply h
  have hdrop : l.dropWhile isPyWs = [] := by
    rw [List.dropWhile_eq_nil_iff]
    intro a ha
    simpa using hall a ha
  unfold pyStripList
  rw [hdrop]
  rfl

theorem join_consHead (c : Char) (L : List (List Char)) :
    (consHead c L).join = c :: L.join := by
  cases L <;> simp [consHead]

theorem mem_splitOnPred {f : Char → Bool} {c : Char} :
    ∀ {l : List Char} {p : List Char}, p ∈ splitOnPred f l → c ∈ p →
      c ∈ l ∧ f c = false
  | [], p, hp, hc => by
    simp only [splitOnPred, List.mem_singleton] at hp
    subst hp
    exact absurd hc (List.not_mem_nil c)
  | a :: l, p, hp, hc => by
    rw [splitOnPred] at hp
    by_cases ha : f a = true
    · rw [if_pos ha] at hp
      rcases List.mem_cons.mp hp with rfl | hp'
      · exact absurd hc (List.not_mem_nil c)
      · have := mem_splitOnPred hp' hc
        exact ⟨List.mem_cons_of_mem a this.1, this.2⟩
    · rw [if_neg ha] at hp
      rcases hrec : splitOnPred f l with _ | ⟨h0, t0⟩
      · rw [hrec] at hp
        simp only [consHead, List.mem_singleton] at hp
        subst hp
        rcases List.mem_singleton.mp hc with rfl
        exact ⟨List.mem_cons_self _ _, Bool.eq_false_iff.mpr ha⟩
      · rw [hrec] at hp
        simp only [consHead, List.mem_cons] at hp
        rcases hp with rfl | hp'
        · rcases List.mem_cons.mp hc with rfl | hc'
          · exact ⟨List.mem_cons_self _ _, Bool.eq_false_iff.mpr ha⟩
          · have := mem_splitOnPred (l := l) (p := h0)
              (by rw [hrec]; exact List.mem_cons_self _ _) hc'
            exact ⟨List.mem_cons_of_mem a this.1, this.2⟩
        · have := mem_splitOnPred (l := l) (p := p)
            (by rw [hrec]; exact List.mem_cons_of_mem _ hp') hc
          exact ⟨List.mem_cons_of_mem a this.1, this.2⟩

theorem mem_join_splitSentZhAux {c : Char} (hws : isPyWs c = false) :
    ∀ (skip : Bool) (l : List Char), c ∈ l → c ∈ (splitSentZhAux skip l).join := by
  intro skip l
  induction l generalizing skip with
  | nil => intro h; exact absurd h (List.not_mem_nil c)
  | cons a rest ih =>
    intro h
    rw [splitSentZhAux]
    split_ifs with hskip hterm
    · rcases List.mem_cons.mp h with rfl | h'
      · rw [hws] at hskip; simp at hskip
      · exact ih true h'
    · simp only [List.join_cons, List.singleton_append, List.mem_cons]
      rcases List.mem_cons.mp h with rfl | h'
      · exact Or.inl rfl
      · exact Or.inr (ih true h')
    · rw [join_consHead]
      rcases List.mem_cons.mp h with rfl | h'
      · exact List.mem_cons_self _ _
      · exact List.mem_cons_of_mem a (ih false h')

theorem mem_join_splitSentLatinAux {c : Char} (hws : isPyWs c = false) :
    ∀ (skip : Bool) (l : List Char), c ∈ l → c ∈ (splitSentLatinAux skip l).join := by
  intro skip l
  induction l generalizing skip with
  | nil => intro h; exact absurd h (List.not_mem_nil c)
  | cons a rest ih =>
    intro h
    rw [splitSentLatinAux.eq_def]
    dsimp only
    split_ifs with hskip hterm
    · rcases List.mem_cons.mp h with rfl | h'
      · rw [hws] at hskip; simp at hskip
      · exact ih true h'
    · simp only [List.join_cons, List.singleton_append, List.mem_cons]
      rcases List.mem_cons.mp h with rfl | h'
      · exact Or.inl rfl
      · exact Or.inr (ih true h')
    · rw [join_consHead]
      rcases List.mem_cons.mp h with rfl | h'
      · exact List.mem_cons_self _ _
      · exact List.mem_cons_of_mem a (ih false h')

/-- A text containing a non-whitespace character splits into at least one
non-empty stripped sentence. -/
theorem _split_sentences_ne_nil {text : List Char} {lang : Option Lang}
    {c : Char} (hc : c ∈ text) (hws : isPyWs c = false) :
    _split_sentences text lang ≠ [] := by
  have htext : text ≠ [] := by rintro rfl; exact absurd hc (List.not_mem_nil c)
  unfold _split_sentences
  rw [if_neg htext]
  have hj : c ∈ (if lang = some .zh then splitSentZh text else splitSentLatin text).join := by
    by_cases hz : lang = some Lang.zh
    · rw [if_pos hz]; exact mem_join_splitSentZhAux hws false text hc
    · rw [if_neg hz]; exact mem_join_splitSentLatinAux hws false text hc
  rw [List.mem_join] at hj
  obtain ⟨piece, hpiece, hcp⟩ := hj
  intro hnil
  rw [List.filter_eq_nil] at hnil
  exact hnil (pyStripList piece)
    (List.mem_map_of_mem pyStripList hpiece)
    (by simpa using pyStripList_ne_nil_of_mem hcp hws)

/-- `_looks_like_paragraph` is exactly the two-segments-and-80-chars
test. -/
theorem _looks_like_paragraph_iff {text : List Char} {lang : Option Lang}
    (htext : text ≠ []) :
    _looks_like_paragraph text lang = true ↔
      2 ≤ (((splitOnPred (sentTermFor lang) text).map pyStripList).filter
            (· ≠ [])).length
      ∧ 80 ≤ text.length := by
  simp only [_looks_like_paragraph]
  rw [if_neg htext]
  split_ifs with h1 h2
  · exact iff_of_false (by simp) (by omega)
  · exact iff_of_false (by simp) (by omega)
  · exact iff_of_true rfl ⟨by omega, by omega⟩

/-- When `_looks_like_paragraph` holds, the sentence segmentation is
non-empty (so the paragraph branch of `analyze_query` always returns). -/
theorem _split_sentences_ne_nil_of_paragraph {text : List Char}
    {lang : Option Lang} (h : _looks_like_paragraph text lang = true) :
    _split_sentences text lang ≠ [] := by
  have htext : text ≠ [] := by
    rintro rfl
    rw [_looks_like_paragraph] at h
    simp at h
  obtain ⟨hseg, -⟩ := (_looks_like_paragraph_iff htext).mp h
  have hne : (((splitOnPred (sentTermFor lang) text).map pyStripList).filter
      (· ≠ [])) ≠ [] := by
    intro hnil
    rw [hnil] at hseg
    simp at hseg
  obtain ⟨s, hs⟩ := List.exists_mem_of_ne_nil _ hne
  have hs' := List.mem_filter.mp hs
  obtain ⟨part, hpart, rfl⟩ := List.mem_map.mp hs'.1
  have hstrip : pyStripList part ≠ [] := by simpa using hs'.2
  obtain ⟨c, hcs, hws⟩ := exists_not_ws_of_pyStripList_ne_nil hstrip
  exact _split_sentences_ne_nil ((mem_splitOnPred hpart hcs).1) hws

theorem analyze_query_ok_ne_nil {q : String} {nl tl : Lang}
    {res : QueryAnalysisResult} (h : analyze_query q nl tl = .ok res) :
    normalizeChars q.data ≠ [] := by
  intro hnil
  simp only [analyze_query] at h
  rw [if_pos hnil] at h
  exact Except.noConfusion h

/-- `analyze_query` on a non-empty normalized query, with the impossible
empty-segmentation sub-case of the paragraph branch discharged. -/
theorem analyze_query_spec (q : String) (nl tl : Lang)
    (hne : normalizeChars q.data ≠ []) :
    analyze_query q nl tl =
      if _looks_like_paragraph (normalizeChars q.data)
          (some (resolveQueryLang (normalizeChars q.data) nl tl)) then
        .ok ⟨q, ⟨normalizeChars q.data⟩, .paragraph,
          (_split_sentences (normalizeChars q.data)
            (some (resolveQueryLang (normalizeChars q.data) nl tl))).map (fun s => ⟨s⟩),
          some (resolveQueryLang (normalizeChars q.data) nl tl)⟩
      else if 2 ≤ (_split_list_candidates (normalizeChars q.data)).length
          && (_split_list_candidates (normalizeChars q.data)).countP
              (fun it => _looks_like_sentence it
                (some (resolveQueryLang (normalizeChars q.data) nl tl))) = 0 then
        .ok ⟨q, ⟨normalizeChars q.data⟩,
          _decide_list_type (_split_list_candidates (normalizeChars q.data))
            (some (resolveQueryLang (normalizeChars q.data) nl tl)),
          (_split_list_candidates (normalizeChars q.data)).map (fun s => ⟨s⟩),
          some (resolveQueryLang (normalizeChars q.data) nl tl)⟩
      else
        .ok ⟨q, ⟨normalizeChars q.data⟩,
          (if _looks_like_sentence (normalizeChars q.data)
              (some (resolveQueryLang (normalizeChars q.data) nl tl)) then .sentence
           else _decide_word_or_phrase (normalizeChars q.data)
              (some (resolveQueryLang (normalizeChars q.data) nl tl))),
          [⟨normalizeChars q.data⟩],
          some (resolveQueryLang (normalizeChars q.data) nl tl)⟩ := by
  simp only [analyze_query]
  rw [if_neg hne]
  by_cases hpara : _looks_like_paragraph (normalizeChars q.data)
      (some (resolveQueryLang (normalizeChars q.data) nl tl)) = true
  · rw [if_pos hpara, if_pos hpara,
      if_neg (_split_sentences_ne_nil_of_paragraph hpara)]
  · rw [if_neg hpara, if_neg hpara]

theorem resolveQueryLang_tie {n : List Char} {a b : Lang}
    (h : _lang_score n a = _lang_score n b) : resolveQueryLang n a b = a := by
  simp only [resolveQueryLang]
  split_ifs <;> first | rfl | (exfalso; omega)

theorem _decide_list_type_ne_paragraph (items : List (List Char))
    (lang : Option Lang) : _decide_list_type items lang ≠ .paragraph := by
  simp only [_decide_list_type]
  split_ifs <;> simp

theorem _decide_word_or_phrase_ne_paragraph (text : List Char)
    (lang : Option Lang) : _decide_word_or_phrase text lang ≠ .paragraph := by
  unfold _decide_word_or_phrase
  rcases lang with _ | l
  · dsimp only
    split_ifs <;> simp
  · cases l <;> (dsimp only; split_ifs <;> simp)

theorem _decide_list_type_spec (items : List (List Char)) (lang : Option Lang)
    (hne : items ≠ []) :
    (_decide_list_type items lang = .word_list ↔
      7 / 10 ≤ (((items.filter (fun it => _is_word_like it lang)).length : ℚ)
        / (items.length : ℚ)))
    ∧ (_decide_list_type items lang = .phrase_list ↔
      (((items.filter (fun it => _is_word_like it lang)).length : ℚ)
        / (items.length : ℚ)) < 7 / 10) := by
  simp only [_decide_list_type]
  rw [if_neg hne]
  split_ifs with hr
  · exact ⟨iff_of_true rfl hr, iff_of_false (by simp) (not_lt.mpr hr)⟩
  · exact ⟨iff_of_false (by simp) hr, iff_of_true rfl (lt_of_not_ge hr)⟩

/-! ## Claim C8: the language tie-break -/

/-- C8: for a non-empty normalized query whose native- and target-language
character-class scores coincide (including both zero), `analyze_query`
resolves `query_lang` to the native language. -/
theorem C8_language_tie_resolves_to_native :
    ∀ (q : String) (nl tl : Lang),
      normalizeChars q.data ≠ [] →
      _lang_score (normalizeChars q.data) nl = _lang_score (normalizeChars q.data) tl →
      ∃ res, analyze_query q nl tl = .ok res ∧ res.query_lang = some nl := by
  intro q nl tl hne htie
  rw [analyze_query_spec q nl tl hne, resolveQueryLang_tie htie]
  split_ifs <;> exact ⟨_, rfl, rfl⟩

/-- Witness for C8 at the all-digit query `"123"` (both scores zero). -/
theorem C8_witness :
    ∃ res, analyze_query "123" .ko .en = .ok res ∧ res.query_lang = some .ko :=
  C8_language_tie_resolves_to_native "123" .ko .en (by decide) (by decide)

/-! ## Claim C6: the paragraph classification -/

/-- C6: `analyze_query` classifies a query as `paragraph` exactly when
splitting the normalized text on the sentence terminators of the detected
language (`。？！` for Chinese, `.!?` otherwise) yields at least two
non-empty trimmed segments and the normalized length is at least 80. -/
theorem C6_paragraph_iff_segments_and_length :
    ∀ (q : String) (nl tl : Lang) (res : QueryAnalysisResult),
      analyze_query q nl tl = .ok res →
      (res.query_type = .paragraph ↔
        2 ≤ (((splitOnPred
                (sentTermFor (some (resolveQueryLang (normalizeChars q.data) nl tl)))
                (normalizeChars q.data)).map pyStripList).filter (· ≠ [])).length
        ∧ 80 ≤ (normalizeChars q.data).length) := by
  intro q nl tl res h
  have hne := analyze_query_ok_ne_nil h
  rw [analyze_query_spec q nl tl hne] at h
  rw [← _looks_like_paragraph_iff hne]
  split_ifs at h with hpara hlist hsent
  · cases h
    exact iff_of_true rfl hpara
  · cases h
    exact iff_of_false (_decide_list_type_ne_paragraph _ _) hpara
  · cases h
    exact iff_of_false (by simp) hpara
  · cases h
    exact iff_of_false (_decide_word_or_phrase_ne_paragraph _ _) hpara

/-- A concrete three-sentence, 83-character query for the C6 witness. -/
def c6Query : String :=
  "This is one. That is two. And here is a third sentence to pass eighty chars total."

def c6Res : QueryAnalysisResult :=
  ⟨c6Query, c6Query, .paragraph,
   ["This is one.", "That is two.",
    "And here is a third sentence to pass eighty chars total."], some .en⟩

/-- Witness for C6 at the concrete query. -/
theorem C6_witness :
    c6Res.query_type = .paragraph ↔
      2 ≤ (((splitOnPred
              (sentTermFor (some (resolveQueryLang (normalizeChars c6Query.data) .en .ko)))
              (normalizeChars c6Query.data)).map pyStripList).filter (· ≠ [])).length
      ∧ 80 ≤ (normalizeChars c6Query.data).length :=
  C6_paragraph_iff_segments_and_length c6Query .en .ko c6Res rfl

/-! ## Claim C7: the word-list/phrase-list threshold -/

/-- A query whose list items are none sentence-like and whose word-like
fraction is 0, yet which `analyze_query` classifies as `paragraph`
because the paragraph check runs first. -/
def c7Query : String :=
  "ab. cd, ab. cd, ab. cd, ab. cd, ab. cd, ab. cd, ab. cd, ab. cd, ab. cd, ab. cd, ab. cd"

def c7Res : QueryAnalysisResult :=
  ⟨c7Query, c7Query, .paragraph,
   ["ab.", "cd, ab.", "cd, ab.", "cd, ab.", "cd, ab.", "cd, ab.", "cd, ab.",
    "cd, ab.", "cd, ab.", "cd, ab.", "cd, ab.", "cd"], some .en⟩

/-- Counterexample to C7 as stated: `c7Query` splits into 12 non-empty list
items, none sentence-like, with word-like fraction 0 < 0.7 — the claim then
requires classification `phrase_list` — but the analyzer returns
`paragraph` (the paragraph check precedes list detection). -/
theorem C7_counterexample :
    (2 ≤ (_split_list_candidates (normalizeChars c7Query.data)).length
     ∧ (_split_list_candidates (normalizeChars c7Query.data)).countP
         (fun it => _looks_like_sentence it
           (some (resolveQueryLang (normalizeChars c7Query.data) .ko .en))) = 0
     ∧ (((_split_list_candidates (normalizeChars c7Query.data)).filter
           (fun it => _is_word_like it
             (some (resolveQueryLang (normalizeChars c7Query.data) .ko .en)))).length : ℚ)
         / ((_split_list_candidates (normalizeChars c7Query.data)).length : ℚ) < 7 / 10)
    ∧ analyze_query c7Query .ko .en = .ok c7Res
    ∧ c7Res.query_type = .paragraph ∧ c7Res.query_type ≠ .phrase_list := by
  refine ⟨⟨by decide, by decide, ?_⟩, rfl, rfl, by decide⟩
  have hf : ((_split_list_candidates (normalizeChars c7Query.data)).filter
      (fun it => _is_word_like it
        (some (resolveQueryLang (normalizeChars c7Query.data) .ko .en)))).length = 0 := by
    decide
  have hl : (_split_list_candidates (normalizeChars c7Query.data)).length = 11 := by
    decide
  rw [hf, hl]
  norm_num

/-- C7 (amended): provided the query is not classified as `paragraph` (the
paragraph check runs first and takes precedence), a query splitting into at
least two non-empty list items of which none is sentence-like is classified
`word_list` exactly when the word-like fraction is ≥ 0.7 and `phrase_list`
exactly when it is < 0.7 (so exactly 0.7 yields `word_list`). -/
theorem C7_list_type_threshold :
    ∀ (q : String) (nl tl : Lang) (res : QueryAnalysisResult),
      analyze_query q nl tl = .ok res →
      res.query_type ≠ .paragraph →
      2 ≤ (_split_list_candidates (normalizeChars q.data)).length →
      (_split_list_candidates (normalizeChars q.data)).countP
        (fun it => _looks_like_sentence it
          (some (resolveQueryLang (normalizeChars q.data) nl tl))) = 0 →
      (res.query_type = .word_list ↔
        7 / 10 ≤ (((_split_list_candidates (normalizeChars q.data)).filter
            (fun it => _is_word_like it
              (some (resolveQueryLang (normalizeChars q.data) nl tl)))).length : ℚ)
          / ((_split_list_candidates (normalizeChars q.data)).length : ℚ))
      ∧ (res.query_type = .phrase_list ↔
        (((_split_list_candidates (normalizeChars q.data)).filter
            (fun it => _is_word_like it
              (some (resolveQueryLang (normalizeChars q.data) nl tl)))).length : ℚ)
          / ((_split_list_candidates (normalizeChars q.data)).length : ℚ) < 7 / 10) := by
  intro q nl tl res h hnp h2 h0
  have hne := analyze_query_ok_ne_nil h
  rw [analyze_query_spec q nl tl hne] at h
  split_ifs at h with hpara hlist hsent
  · cases h
    exact absurd rfl hnp
  · cases h
    exact _decide_list_type_spec _ _
      (by intro hnil; rw [hnil] at h2; simp at h2)
  · exact absurd (by simp [h2, h0]) hlist
  · exact absurd (by simp [h2, h0]) hlist

/-- A concrete all-word-like list for the C7 witness. -/
def c7WitQuery : String := "apple, banana, orange"

def c7WitRes : QueryAnalysisResult :=
  ⟨c7WitQuery, c7WitQuery, .word_list, ["apple", "banana", "orange"], some .en⟩

/-- Witness for the amended C7 at the concrete list query. -/
theorem C7_witness :
    (c7WitRes.query_type = .word_list ↔
      7 / 10 ≤ (((_split_list_candidates (normalizeChars c7WitQuery.data)).filter
          (fun it => _is_word_like it
            (some (resolveQueryLang (normalizeChars c7WitQuery.data) .en .ko)))).length : ℚ)
        / ((_split_list_candidates (normalizeChars c7WitQuery.data)).length : ℚ))
    ∧ (c7WitRes.query_type = .phrase_list ↔
      (((_split_list_candidates (normalizeChars c7WitQuery.data)).filter
          (fun it => _is_word_like it
            (some (resolveQueryLang (normalizeChars c7WitQuery.data) .en .ko)))).length : ℚ)
        / ((_split_list_candidates (normalizeChars c7WitQuery.data)).length : ℚ) < 7 / 10) := by
  have hdlt : _decide_list_type (_split_list_candidates (normalizeChars c7WitQuery.data))
      (some (resolveQueryLang (normalizeChars c7WitQuery.data) .en .ko)) = .word_list := by
    apply (_decide_list_type_spec _ _ (by decide)).1.mpr
    have hc : ((_split_list_candidates (normalizeChars c7WitQuery.data)).filter
        (fun it => _is_word_like it
          (some (resolveQueryLang (normalizeChars c7WitQuery.data) .en .ko)))).length = 3 := by
      decide
    have hl : (_split_list_candidates (normalizeChars c7WitQuery.data)).length = 3 := by
      decide
    rw [hc, hl]
    norm_num
  have hok : analyze_query c7WitQuery .en .ko = .ok c7WitRes := by
    rw [analyze_query_spec c7WitQuery .en .ko (by decide),
      if_neg (by decide), if_pos (by decide), hdlt]
    rfl
  exact C7_list_type_threshold c7WitQuery .en .ko c7WitRes hok
    (by decide) (by decide) (by decide)

end AdapDict
